import Mathlib

/-!
Verification of the class-loading and class-file-decoding core of the
rust_jvm repository (src/class_loader.rs, src/class_file.rs,
src/constant_pool.rs, src/attribute.rs, src/field.rs, src/method.rs,
src/class_path.rs, src/class.rs, src/class_array.rs).

The Rust code is shallowly embedded:

* A byte stream is a `List Nat` (each element a byte value); the reader
  monad `DecM` passes the remaining stream explicitly, mirroring the
  `Read` cursor the Rust decoder threads through every function.
* Fallible Rust code returning `Result<_, ClassLoadingError>` becomes
  `Except DecErr _` with `DecErr.fault`; a Rust `panic!` (which aborts
  the process) becomes the distinct outcome `DecErr.panicked` so that
  "returns an error value" and "aborts" stay distinguishable.
* Recursion that Rust bounds by the finiteness of its input (nested
  attributes, nested element values, the constant-pool loop, the
  loader's super-chain walk) is driven by an explicit fuel parameter.
  Fuel exhaustion is the separate outcome `fuelOut` / `LRes.fuelOut`,
  never conflated with a real result; concrete evaluations use a fuel
  derived generously from the input size.
* Machine-integer wraparound (`u8`/`u16` arithmetic) is modelled with
  explicit `% 2^w`; the spots where a debug build would abort instead
  are noted at the definition.
* External crates are modelled at their observable boundary: byteorder
  reads are big-endian byte arithmetic, the filesystem/zip roots of the
  class path are finite entry maps, and cesu8 decoding is modelled on
  the ASCII subset (see `from_java_cesu8`).
-/

/-- Fault kinds of class loading, from the `ClassLoadingError` enum in
src/class_file.rs. -/
inductive ClassLoadingError : Type where
  | LinkageError : ClassLoadingError
  | ClassFormatError : String → ClassLoadingError
  | UnsupportedClassVersionError : ClassLoadingError
  | NoClassDefFoundError : ClassLoadingError
  | IncompatibleClassChangeError : ClassLoadingError
  | ClassCircularityError : ClassLoadingError
deriving DecidableEq

/-- Outcome of a decoding step: either a recoverable fault value (a Rust
`Err` that the caller receives), a panic (process abort), or exhaustion
of the embedding's recursion fuel. -/
inductive DecErr : Type where
  | fault : ClassLoadingError → DecErr
  | panicked : String → DecErr
  | fuelOut : DecErr
deriving DecidableEq

/-- Reader monad over a byte stream, mirroring the `&mut Read` cursor of
the Rust decoder: a computation consumes a prefix of the stream and
returns the remainder. -/
def DecM (α : Type) : Type := List Nat → Except DecErr (α × List Nat)

instance : Monad DecM where
  pure a := fun s => Except.ok (a, s)
  bind m k := fun s =>
    match m s with
    | Except.ok (a, s') => k a s'
    | Except.error e => Except.error e

/-- A Rust `panic!` inside the decoder. -/
def dpanic {α : Type} (msg : String) : DecM α :=
  fun _ => Except.error (DecErr.panicked msg)

/-- A Rust `Err(_)` returned through `?` inside the decoder. -/
def dfault {α : Type} (e : ClassLoadingError) : DecM α :=
  fun _ => Except.error (DecErr.fault e)

/-- Lift a stream-independent fallible computation into the reader. -/
def liftE {α : Type} (x : Except DecErr α) : DecM α :=
  fun s =>
    match x with
    | Except.ok a => Except.ok (a, s)
    | Except.error e => Except.error e

/-- Read one byte.  A truncated stream is an `UnexpectedEof` io error,
which the `From<std::io::Error>` impl in src/class_file.rs converts into
`ClassFormatError("Parsing reached end of Class File")`. -/
def read_u8 : DecM Nat :=
  fun s =>
    match s with
    | [] => Except.error (DecErr.fault
        (ClassLoadingError.ClassFormatError "Parsing reached end of Class File"))
    | b :: rest => Except.ok (b, rest)

/-- Big-endian 16-bit read (byteorder's `read_u16::<BigEndian>`). -/
def read_u16 : DecM Nat := do
  let hi ← read_u8
  let lo ← read_u8
  pure (hi * 256 + lo)

/-- Big-endian 32-bit read (byteorder's `read_u32::<BigEndian>`; the
signed and float variants read the same four bytes, and the model keeps
the raw bit pattern). -/
def read_u32 : DecM Nat := do
  let b0 ← read_u8
  let b1 ← read_u8
  let b2 ← read_u8
  let b3 ← read_u8
  pure (((b0 * 256 + b1) * 256 + b2) * 256 + b3)

/-- Big-endian 64-bit read (raw bit pattern, used for Long/Double pool
entries). -/
def read_u64 : DecM Nat := do
  let hi ← read_u32
  let lo ← read_u32
  pure (hi * 4294967296 + lo)

/-- Rust's `read_exact` into a buffer of length `n`. -/
def read_exact : Nat → DecM (List Nat)
  | 0 => pure []
  | n + 1 => do
    let b ← read_u8
    let bs ← read_exact n
    pure (b :: bs)

/-- Run a decoder `n` times collecting the results, the shape of every
`for _ in 0..n { v.push(dec?) }` loop in the decoder. -/
def read_n {α : Type} (dec : DecM α) : Nat → DecM (List α)
  | 0 => pure []
  | n + 1 => do
    let x ← dec
    let xs ← read_n dec n
    pure (x :: xs)

/-- Constant-pool entries, from the `cp_info` enum in
src/constant_pool.rs.  Numeric payloads keep the raw big-endian bit
pattern (nothing in the repository computes with them). -/
inductive cp_info : Type where
  | CONSTANT_Class_info : Nat → cp_info
  | CONSTANT_Fieldref_info : Nat → Nat → cp_info
  | CONSTANT_Methodref_info : Nat → Nat → cp_info
  | CONSTANT_InterfaceMethodref_info : Nat → Nat → cp_info
  | CONSTANT_String_info : Nat → cp_info
  | CONSTANT_Integer_info : Nat → cp_info
  | CONSTANT_Float_info : Nat → cp_info
  | CONSTANT_Long_info : Nat → cp_info
  | CONSTANT_Double_info : Nat → cp_info
  | CONSTANT_NameAndType_info : Nat → Nat → cp_info
  | CONSTANT_Utf8_info : String → cp_info
deriving DecidableEq

/-- Modelled behaviour of the external cesu8 crate's `from_java_cesu8`
restricted to the ASCII subset actually exercised by the repository:
bytes 1..=127 decode to the corresponding character; any other byte is a
`Cesu8DecodingError`, which the `From` impl in src/class_file.rs turns
into a panic. -/
def cesu8_chars : List Nat → Option (List Char)
  | [] => Option.some []
  | b :: rest =>
    if 1 ≤ b ∧ b ≤ 127 then
      (cesu8_chars rest).map (fun cs => Char.ofNat b :: cs)
    else
      Option.none

/-- See `cesu8_chars`; the error case panics per the `From` impl. -/
def from_java_cesu8 (bs : List Nat) : Except DecErr String :=
  match cesu8_chars bs with
  | Option.some cs => Except.ok (String.mk cs)
  | Option.none => Except.error (DecErr.panicked "Error decoding Modified UTF8")

/-- Decode one constant-pool entry (`cp_info::new` in
src/constant_pool.rs).  An unknown tag byte is a `panic!`, not a fault
value. -/
def cp_info_new : DecM cp_info := do
  let tag ← read_u8
  match tag with
  | 7 => do
    let class_index ← read_u16
    pure (cp_info.CONSTANT_Class_info class_index)
  | 9 => do
    let class_index ← read_u16
    let name_and_type_index ← read_u16
    pure (cp_info.CONSTANT_Fieldref_info class_index name_and_type_index)
  | 10 => do
    let class_index ← read_u16
    let name_and_type_index ← read_u16
    pure (cp_info.CONSTANT_Methodref_info class_index name_and_type_index)
  | 11 => do
    let class_index ← read_u16
    let name_and_type_index ← read_u16
    pure (cp_info.CONSTANT_InterfaceMethodref_info class_index name_and_type_index)
  | 8 => do
    let string_index ← read_u16
    pure (cp_info.CONSTANT_String_info string_index)
  | 3 => do
    let bytes ← read_u32
    pure (cp_info.CONSTANT_Integer_info bytes)
  | 4 => do
    let bytes ← read_u32
    pure (cp_info.CONSTANT_Float_info bytes)
  | 5 => do
    let value ← read_u64
    pure (cp_info.CONSTANT_Long_info value)
  | 6 => do
    let value ← read_u64
    pure (cp_info.CONSTANT_Double_info value)
  | 12 => do
    let name_index ← read_u16
    let descriptor_index ← read_u16
    pure (cp_info.CONSTANT_NameAndType_info name_index descriptor_index)
  | 1 => do
    let length ← read_u16
    let bytes ← read_exact length
    let string ← liftE (from_java_cesu8 bytes)
    pure (cp_info.CONSTANT_Utf8_info string)
  | _ => dpanic "Unknown Constant Pool Tag parsed"

/-- The constant pool is the 1-indexed `Vec<Option<cp_info>>` of
src/constant_pool.rs; slot 0 and the slot after every Long/Double entry
hold `None`. -/
def ConstantPool : Type := List (Option cp_info)

/-- The `while iter > 0` loop of `read_constant_pool`.  The `u16`
decrements wrap mod 2^16 exactly as a release build does (`iter - 2`
underflows when a Long/Double entry arrives with `iter == 1`; a debug
build would abort there).  Each iteration consumes at least the tag
byte, so fuel proportional to the stream length is always sufficient. -/
def read_constant_pool_loop (iter : Nat) : Nat → DecM (List (Option cp_info))
  | 0 => fun _ => Except.error DecErr.fuelOut
  | fuel + 1 =>
    if iter > 0 then do
      let info ← cp_info_new
      match info with
      | cp_info.CONSTANT_Double_info v => do
        let rest ← read_constant_pool_loop ((iter + 65536 - 2) % 65536) fuel
        pure (Option.some (cp_info.CONSTANT_Double_info v) :: Option.none :: rest)
      | cp_info.CONSTANT_Long_info v => do
        let rest ← read_constant_pool_loop ((iter + 65536 - 2) % 65536) fuel
        pure (Option.some (cp_info.CONSTANT_Long_info v) :: Option.none :: rest)
      | other => do
        let rest ← read_constant_pool_loop ((iter + 65536 - 1) % 65536) fuel
        pure (Option.some other :: rest)
    else
      pure []

/-- Decode the whole constant pool (`read_constant_pool` in
src/constant_pool.rs): slot 0 is unused, then `constant_pool_count - 1`
slots (u16 subtraction, wrapping when the count is 0). -/
def read_constant_pool (constant_pool_count : Nat) (fuel : Nat) :
    DecM ConstantPool := do
  let entries ← read_constant_pool_loop ((constant_pool_count + 65536 - 1) % 65536) fuel
  pure (Option.none :: entries)

/-- The panicking indexed lookup `ConstantPool::get_entry`: indexing out
of bounds or hitting an unused slot is a panic. -/
def get_entry (pool : ConstantPool) (index : Nat) : Except DecErr cp_info :=
  match List.get? pool index with
  | Option.none => Except.error (DecErr.panicked "constant pool index out of bounds")
  | Option.some Option.none => Except.error (DecErr.panicked "unwrap of unused constant pool slot")
  | Option.some (Option.some e) => Except.ok e

/-- The panicking text lookup `ConstantPool::get_string_entry`: the
entry must be a `CONSTANT_Utf8_info`. -/
def get_string_entry (pool : ConstantPool) (index : Nat) : Except DecErr String :=
  match get_entry pool index with
  | Except.ok (cp_info.CONSTANT_Utf8_info s) => Except.ok s
  | Except.ok _ => Except.error (DecErr.panicked "entry is not CONSTANT_Utf8_info")
  | Except.error e => Except.error e

/-- Payload of a verification-type record, from src/attribute.rs. -/
inductive verification_type_info_data : Type where
  | Top_variable_info : verification_type_info_data
  | Integer_variable_info : verification_type_info_data
  | Float_variable_info : verification_type_info_data
  | Long_variable_info : verification_type_info_data
  | Double_variable_info : verification_type_info_data
  | Null_variable_info : verification_type_info_data
  | UninitializedThis_variable_info : verification_type_info_data
  | Object_variable_info : Nat → verification_type_info_data
  | Uninitialized_variable_info : Nat → verification_type_info_data
deriving DecidableEq

/-- A decoded verification-type record (tag byte plus payload). -/
structure verification_type_info : Type where
  tag : Nat
  data : verification_type_info_data
deriving DecidableEq

/-- Decode a verification-type record (`verification_type_info::new`).
A tag outside 0..=8 is a `panic!`. -/
def verification_type_info_new : DecM verification_type_info := do
  let tag ← read_u8
  let data ←
    match tag with
    | 0 => pure verification_type_info_data.Top_variable_info
    | 1 => pure verification_type_info_data.Integer_variable_info
    | 2 => pure verification_type_info_data.Float_variable_info
    | 4 => pure verification_type_info_data.Long_variable_info
    | 3 => pure verification_type_info_data.Double_variable_info
    | 5 => pure verification_type_info_data.Null_variable_info
    | 6 => pure verification_type_info_data.UninitializedThis_variable_info
    | 7 => do
      let cpool_index ← read_u16
      pure (verification_type_info_data.Object_variable_info cpool_index)
    | 8 => do
      let offset ← read_u16
      pure (verification_type_info_data.Uninitialized_variable_info offset)
    | _ => dpanic "Unsupported verification_type_info tag parsed"
  pure { tag := tag, data := data }

/-- Payload of a stack-map frame, from src/attribute.rs. -/
inductive stack_map_frame_data : Type where
  | same_frame : stack_map_frame_data
  | same_locals_1_stack_item_frame :
      verification_type_info → stack_map_frame_data
  | same_locals_1_stack_item_frame_extended :
      Nat → verification_type_info → stack_map_frame_data
  | chop_frame : Nat → stack_map_frame_data
  | same_frame_extended : Nat → stack_map_frame_data
  | append_frame : Nat → List verification_type_info → stack_map_frame_data
  | full_frame : Nat → Nat → List verification_type_info → Nat →
      List verification_type_info → stack_map_frame_data
deriving DecidableEq

/-- A decoded stack-map frame (frame-type byte plus payload). -/
structure stack_map_frame : Type where
  frame_type : Nat
  frame_data : stack_map_frame_data
deriving DecidableEq

/-- Decode one stack-map frame (`stack_map_frame::new` in
src/attribute.rs).  The frame-type ranges are those of the source match;
the reserved range 128..=246 is a `panic!`.  In the `255` (full_frame)
branch the source's second loop pushes the decoded stack items into the
`locals` vector (attribute.rs line 306), so the assembled frame carries
`locals ++ stack_items` as its locals and an empty stack; the model
reproduces that faithfully. -/
def stack_map_frame_new : DecM stack_map_frame := do
  let frame_type ← read_u8
  let frame_data ←
    if frame_type ≤ 63 then
      pure stack_map_frame_data.same_frame
    else if frame_type ≤ 127 then do
      let stack ← verification_type_info_new
      pure (stack_map_frame_data.same_locals_1_stack_item_frame stack)
    else if frame_type = 247 then do
      let offset_delta ← read_u16
      let stack ← verification_type_info_new
      pure (stack_map_frame_data.same_locals_1_stack_item_frame_extended offset_delta stack)
    else if 248 ≤ frame_type ∧ frame_type ≤ 250 then do
      let offset_delta ← read_u16
      pure (stack_map_frame_data.chop_frame offset_delta)
    else if frame_type = 251 then do
      let offset_delta ← read_u16
      pure (stack_map_frame_data.same_frame_extended offset_delta)
    else if 252 ≤ frame_type ∧ frame_type ≤ 254 then do
      let offset_delta ← read_u16
      let locals ← read_n verification_type_info_new (frame_type - 251)
      pure (stack_map_frame_data.append_frame offset_delta locals)
    else if frame_type = 255 then do
      let offset_delta ← read_u16
      let number_of_locals ← read_u16
      let locals ← read_n verification_type_info_new number_of_locals
      let number_of_stack_items ← read_u16
      let stack_items ← read_n verification_type_info_new number_of_stack_items
      pure (stack_map_frame_data.full_frame offset_delta number_of_locals
        (locals ++ stack_items) number_of_stack_items [])
    else
      dpanic "Parsed stack_map_frame frame_type reserved for future use"
  pure { frame_type := frame_type, frame_data := frame_data }

/-- References to classes by name or by resolved handle (`ClassRef` in
src/class.rs).  The resolved variant carries an arena index, the model's
notion of handle identity. -/
inductive ClassRef : Type where
  | Symbolic : String → ClassRef
  | Static : Nat → ClassRef
deriving DecidableEq

/-- The type of a field (`FieldDescriptor` in src/field.rs). -/
inductive FieldDescriptor : Type where
  | Byte : FieldDescriptor
  | Character : FieldDescriptor
  | Double : FieldDescriptor
  | Float : FieldDescriptor
  | Integer : FieldDescriptor
  | Long : FieldDescriptor
  | Reference : ClassRef → FieldDescriptor
  | Short : FieldDescriptor
  | Boolean : FieldDescriptor
deriving DecidableEq

/-- The byte-index slice `&source[a..b]` of the descriptor text; all
names in play are ASCII, so byte indices and char indices coincide. -/
def slice_chars (source : List Char) (a b : Nat) : String :=
  String.mk ((source.drop a).take (b - a))

/-- The `while chars.next().unwrap().1 != ';'` scan of
`parse_field_descriptor_reference` (src/field.rs): advances `last_index`
once per non-semicolon character; running out of characters is the
`unwrap` panic. -/
def scan_to_semicolon (last : Nat) : List (Nat × Char) → Except DecErr (Nat × List (Nat × Char))
  | [] => Except.error (DecErr.panicked "called Option unwrap on a None value")
  | (_, c) :: rest =>
    if c = ';' then Except.ok (last, rest)
    else scan_to_semicolon (last + 1) rest

/-- Parse a reference type such as `Ljava/lang/Object;`
(`parse_field_descriptor_reference` in src/field.rs): the slice starts
one past the `L` and stops before the semicolon. -/
def parse_field_descriptor_reference (source : List Char) :
    List (Nat × Char) → Except DecErr (FieldDescriptor × Nat × List (Nat × Char))
  | [] => Except.error (DecErr.panicked "called Option unwrap on a None value")
  | (i, _) :: rest =>
    match scan_to_semicolon (i + 1) rest with
    | Except.ok (last, rest') =>
      Except.ok (FieldDescriptor.Reference (ClassRef.Symbolic (slice_chars source (i + 1) last)),
        last, rest')
    | Except.error e => Except.error e

/-- The `while chars.peek().unwrap().1 == '['` skip of
`parse_field_descriptor_array` (src/field.rs); peeking past the end is
the `unwrap` panic. -/
def skip_brackets : List (Nat × Char) → Except DecErr (List (Nat × Char))
  | [] => Except.error (DecErr.panicked "called Option unwrap on a None value")
  | (j, c) :: rest =>
    if c = '[' then skip_brackets rest
    else Except.ok ((j, c) :: rest)

/-- The recursive field-descriptor parser
(`parse_field_descriptor_index` in src/field.rs), returning the parsed
descriptor, the index of the last character consumed, and the remaining
enumerated characters.  The `'['` case is
`parse_field_descriptor_array`, inlined here so the recursion is
structural in the fuel: peek the first index, skip the bracket run,
parse the component, and slice from the first bracket through the
component's last character.  An unknown leading character is a
`panic!`. -/
def parse_field_descriptor_index (source : List Char) :
    Nat → List (Nat × Char) → Except DecErr (FieldDescriptor × Nat × List (Nat × Char))
  | 0, _ => Except.error DecErr.fuelOut
  | _ + 1, [] => Except.error (DecErr.panicked "called Option unwrap on a None value")
  | fuel + 1, (i, c) :: rest =>
    if c = 'L' then
      parse_field_descriptor_reference source ((i, c) :: rest)
    else if c = '[' then
      match skip_brackets ((i, c) :: rest) with
      | Except.error e => Except.error e
      | Except.ok after =>
        match parse_field_descriptor_index source fuel after with
        | Except.error e => Except.error e
        | Except.ok (_, component_last, rest') =>
          Except.ok (FieldDescriptor.Reference (ClassRef.Symbolic
              (slice_chars source i (component_last + 1))),
            component_last + 1, rest')
    else
      match c with
      | 'B' => Except.ok (FieldDescriptor.Byte, i, rest)
      | 'C' => Except.ok (FieldDescriptor.Character, i, rest)
      | 'D' => Except.ok (FieldDescriptor.Double, i, rest)
      | 'F' => Except.ok (FieldDescriptor.Float, i, rest)
      | 'I' => Except.ok (FieldDescriptor.Integer, i, rest)
      | 'J' => Except.ok (FieldDescriptor.Long, i, rest)
      | 'S' => Except.ok (FieldDescriptor.Short, i, rest)
      | 'Z' => Except.ok (FieldDescriptor.Boolean, i, rest)
      | _ => Except.error (DecErr.panicked "Illegal character in field descriptor")

/-- The public `parse_field_descriptor` of src/field.rs: parse from an
enumerated character cursor, dropping the index bookkeeping. -/
def parse_field_descriptor (source : List Char) (fuel : Nat)
    (chars : List (Nat × Char)) : Except DecErr FieldDescriptor :=
  match parse_field_descriptor_index source fuel chars with
  | Except.ok (fd, _, _) => Except.ok fd
  | Except.error e => Except.error e

/-- Parse a whole descriptor string the way every call site builds its
cursor: `descriptor_str.chars().enumerate().peekable()`. -/
def parse_field_descriptor_str (s : String) : Except DecErr FieldDescriptor :=
  parse_field_descriptor s.data (s.data.length + 2) (List.enum s.data)

/-- The return type of a method (`ReturnDescriptor` in src/method.rs). -/
inductive ReturnDescriptor : Type where
  | Return : FieldDescriptor → ReturnDescriptor
  | Void : ReturnDescriptor
deriving DecidableEq

/-- The signature of a method (`MethodDescriptor` in src/method.rs). -/
structure MethodDescriptor : Type where
  parameters : List FieldDescriptor
  return_type : ReturnDescriptor
deriving DecidableEq

/-- The `loop { let next = chars.next(); if ';' break; endIndex += 1 }`
scan of src/method.rs's `parse_descriptor_reference`: unlike the
field.rs scanner it stops the index one character early, which truncates
the referenced class name (see `parse_method_descriptor`). -/
def m_scan_reference (endIndex : Nat) :
    List (Nat × Char) → Except DecErr (Nat × List (Nat × Char))
  | [] => Except.error (DecErr.panicked "called Option unwrap on a None value")
  | (_, c) :: rest =>
    if c = ';' then Except.ok (endIndex, rest)
    else m_scan_reference (endIndex + 1) rest

/-- `parse_descriptor_reference` in src/method.rs: consume the character
after `L` as `startIndex`, scan to the semicolon, slice
`[startIndex..endIndex]`. -/
def parse_descriptor_reference (method_name : List Char) :
    List (Nat × Char) → Except DecErr (FieldDescriptor × List (Nat × Char))
  | [] => Except.error (DecErr.panicked "called Option unwrap on a None value")
  | (si, _) :: rest =>
    match m_scan_reference si rest with
    | Except.ok (endIndex, rest') =>
      Except.ok (FieldDescriptor.Reference (ClassRef.Symbolic
          (slice_chars method_name si endIndex)), rest')
    | Except.error e => Except.error e

/-- The `while next.unwrap().1 == '['` loop of src/method.rs's
`parse_descriptor_array`: `cur` is the most recent `next` value;
exhausting the iterator inside the loop is the `unwrap` panic. -/
def m_array_loop : Nat → (Nat × Char) → List (Nat × Char) →
    Except DecErr (Nat × (Nat × Char) × List (Nat × Char))
  | endIndex, cur, [] =>
    if cur.2 = '[' then Except.error (DecErr.panicked "called Option unwrap on a None value")
    else Except.ok (endIndex, cur, [])
  | endIndex, cur, c :: rest =>
    if cur.2 = '[' then m_array_loop (endIndex + 1) c rest
    else Except.ok (endIndex, cur, c :: rest)

/-- The `'L'` tail loop of src/method.rs's `parse_descriptor_array`:
`endIndex` is incremented before the semicolon test, so the final
semicolon is counted but the slice still stops short of it. -/
def m_ref_after_array (endIndex : Nat) :
    List (Nat × Char) → Except DecErr (Nat × List (Nat × Char))
  | [] => Except.error (DecErr.panicked "called Option unwrap on a None value")
  | (_, c) :: rest =>
    if c = ';' then Except.ok (endIndex + 1, rest)
    else m_ref_after_array (endIndex + 1) rest

/-- `parse_descriptor_array` in src/method.rs, reached after the `'['`
was consumed by the parameter loop: `startIndex` recovers the bracket's
position from the following character's index (the call sites guarantee
that index is at least 1, so the usize subtraction cannot underflow). -/
def parse_descriptor_array (method_name : List Char) :
    List (Nat × Char) → Except DecErr (FieldDescriptor × List (Nat × Char))
  | [] => Except.error (DecErr.panicked "called Option unwrap on a None value")
  | c0 :: rest =>
    let startIndex := c0.1 - 1
    match m_array_loop (startIndex + 1) c0 rest with
    | Except.error e => Except.error e
    | Except.ok (endIndex, cur, rest') =>
      match cur.2 with
      | 'B' | 'C' | 'D' | 'F' | 'I' | 'J' | 'S' | 'Z' =>
        Except.ok (FieldDescriptor.Reference (ClassRef.Symbolic
            (slice_chars method_name startIndex (endIndex + 1))), rest')
      | 'L' =>
        match m_ref_after_array endIndex rest' with
        | Except.ok (endIndex', rest'') =>
          Except.ok (FieldDescriptor.Reference (ClassRef.Symbolic
              (slice_chars method_name startIndex endIndex')), rest'')
        | Except.error e => Except.error e
      | _ => Except.error (DecErr.panicked "Illegal character in descriptor")

/-- The parameter loop of `parse_method_descriptor` (src/method.rs):
one character dispatch per parameter, `')'` breaks.  Parameters are
pushed in order; an unknown character is a `panic!`. -/
def parse_method_descriptor_loop (method_name : List Char) :
    Nat → List (Nat × Char) → List FieldDescriptor →
    Except DecErr (List FieldDescriptor × List (Nat × Char))
  | 0, _, _ => Except.error DecErr.fuelOut
  | _ + 1, [], _ => Except.error (DecErr.panicked "called Option unwrap on a None value")
  | fuel + 1, (_, c) :: rest, parameters =>
    match c with
    | ')' => Except.ok (parameters, rest)
    | 'B' => parse_method_descriptor_loop method_name fuel rest (parameters ++ [FieldDescriptor.Byte])
    | 'C' => parse_method_descriptor_loop method_name fuel rest (parameters ++ [FieldDescriptor.Character])
    | 'D' => parse_method_descriptor_loop method_name fuel rest (parameters ++ [FieldDescriptor.Double])
    | 'F' => parse_method_descriptor_loop method_name fuel rest (parameters ++ [FieldDescriptor.Float])
    | 'I' => parse_method_descriptor_loop method_name fuel rest (parameters ++ [FieldDescriptor.Integer])
    | 'J' => parse_method_descriptor_loop method_name fuel rest (parameters ++ [FieldDescriptor.Long])
    | 'L' =>
      match parse_descriptor_reference method_name rest with
      | Except.ok (fd, rest') => parse_method_descriptor_loop method_name fuel rest' (parameters ++ [fd])
      | Except.error e => Except.error e
    | 'S' => parse_method_descriptor_loop method_name fuel rest (parameters ++ [FieldDescriptor.Short])
    | 'Z' => parse_method_descriptor_loop method_name fuel rest (parameters ++ [FieldDescriptor.Boolean])
    | '[' =>
      match parse_descriptor_array method_name rest with
      | Except.ok (fd, rest') => parse_method_descriptor_loop method_name fuel rest' (parameters ++ [fd])
      | Except.error e => Except.error e
    | _ => Except.error (DecErr.panicked "Illegal Field Descriptor")

/-- `parse_method_descriptor` in src/method.rs: requires a leading
`'('`, collects parameters until `')'`, and then returns with
`return_type: ReturnDescriptor::Void` unconditionally — the source
never reads or parses the return descriptor after the closing
parenthesis (method.rs line 116), and the characters after `')'` are
left unconsumed. -/
def parse_method_descriptor (method_name : String) : Except DecErr MethodDescriptor :=
  let cs := method_name.data
  match List.enum cs with
  | [] => Except.error (DecErr.panicked "Method Descriptor did not begin with open paren")
  | (_, c) :: rest =>
    if c = '(' then
      match parse_method_descriptor_loop cs (cs.length + 2) rest [] with
      | Except.ok (parameters, _) =>
        Except.ok { parameters := parameters, return_type := ReturnDescriptor.Void }
      | Except.error e => Except.error e
    else
      Except.error (DecErr.panicked "Method Descriptor did not begin with open paren")

/-- Exception-table rows of a Code attribute (src/attribute.rs). -/
structure exception_info : Type where
  start_pc : Nat
  end_pc : Nat
  handler_pc : Nat
  catch_type : Nat
deriving DecidableEq

/-- Rows of an InnerClasses attribute (src/attribute.rs). -/
structure inner_class : Type where
  inner_class_info_index : Nat
  outer_class_info_index : Nat
  inner_name_index : Nat
  inner_class_access_flags : Nat
deriving DecidableEq

/-- Rows of a LineNumberTable attribute (src/attribute.rs). -/
structure line_number_table_entry : Type where
  start_pc : Nat
  line_number : Nat
deriving DecidableEq

/-- Rows of a LocalVariableTable attribute (src/attribute.rs). -/
structure local_variable_table_entry : Type where
  start_pc : Nat
  length : Nat
  name_index : Nat
  descriptor_index : Nat
  index : Nat
deriving DecidableEq

/-- Rows of a LocalVariableTypeTable attribute (src/attribute.rs). -/
structure local_variable_type_table_entry : Type where
  start_pc : Nat
  length : Nat
  name_index : Nat
  signature_index : Nat
  index : Nat
deriving DecidableEq

/-- Rows of a BootstrapMethods attribute (src/attribute.rs). -/
structure bootstrap_method : Type where
  bootstrap_method_ref : Nat
  num_bootstrap_arguments : Nat
  bootstrap_arguments : List Nat
deriving DecidableEq

mutual

/-- A tagged element value of an annotation record (`element_value` in
src/attribute.rs); the source struct is named `annotation`, rendered
here as `AnnotationRec`. -/
inductive element_value : Type where
  | mk : Nat → element_value_data → element_value

/-- Payload of an element value (`element_value_data` in
src/attribute.rs). -/
inductive element_value_data : Type where
  | const_value_index : Nat → element_value_data
  | enum_const_value : Nat → Nat → element_value_data
  | class_info_index : Nat → element_value_data
  | annotation_value : AnnotationRec → element_value_data
  | array_value : Nat → List element_value → element_value_data

/-- A name/value pair of an annotation (`element_value_pair` in
src/attribute.rs). -/
inductive element_value_pair : Type where
  | mk : Nat → element_value → element_value_pair

/-- An annotation record (the `annotation` struct of src/attribute.rs:
type_index, num_element_value_pairs, element_value_pairs). -/
inductive AnnotationRec : Type where
  | mk : Nat → Nat → List element_value_pair → AnnotationRec

end

/-- One per-parameter annotation list (`annotation_list` in
src/attribute.rs). -/
structure annotation_list : Type where
  num_annotations : Nat
  annotations : List AnnotationRec

mutual

/-- The closed attribute payload variants (`attribute_info_Data` in
src/attribute.rs), including the opaque `Unknown_attribute` fallback.
The two TypeAnnotations variants exist in the source enum but have no
arm in `parse_info`, so the decoder never produces them. -/
inductive attribute_info_Data : Type where
  | ConstantValue_attribute : Nat → attribute_info_Data
  | Code_attribute : Nat → Nat → Nat → List Nat → Nat → List exception_info →
      Nat → List attribute_info → attribute_info_Data
  | StackMapTable_attribute : Nat → List stack_map_frame → attribute_info_Data
  | Exceptions_attribute : Nat → List Nat → attribute_info_Data
  | InnerClasses_attribute : Nat → List inner_class → attribute_info_Data
  | EnclosingMethod_attribute : Nat → Nat → attribute_info_Data
  | Synthetic_attribute : attribute_info_Data
  | Signature_attribute : Nat → attribute_info_Data
  | SourceFile_attribute : Nat → attribute_info_Data
  | SourceDebugExtension : List Nat → attribute_info_Data
  | LineNumberTable_attribute : Nat → List line_number_table_entry → attribute_info_Data
  | LocalVariableTable_attribute : Nat → List local_variable_table_entry → attribute_info_Data
  | LocalVariableTypeTable_attribute : Nat → List local_variable_type_table_entry → attribute_info_Data
  | Deprecated_attribute : attribute_info_Data
  | RuntimeVisibleAnnotations_attribute : Nat → List AnnotationRec → attribute_info_Data
  | RuntimeInvisibleAnnotations_attribute : Nat → List AnnotationRec → attribute_info_Data
  | RuntimeVisibleParameterAnnotations_attribute : Nat → List annotation_list → attribute_info_Data
  | RuntimeInvisibleParameterAnnotations_attribute : Nat → List annotation_list → attribute_info_Data
  | AnnotationDefault_attribute : element_value → attribute_info_Data
  | BootstrapMethods_attribute : Nat → List bootstrap_method → attribute_info_Data
  | RuntimeVisibleTypeAnnotations : attribute_info_Data
  | RuntimeInvisibleTypeAnnotations : attribute_info_Data
  | Unknown_attribute : List Nat → attribute_info_Data

/-- A decoded attribute (`attribute_info` in src/attribute.rs:
attribute_name_index, attribute_length, info). -/
inductive attribute_info : Type where
  | mk : Nat → Nat → attribute_info_Data → attribute_info

end

/-- The `get_data` accessor of `attribute_info`. -/
def attribute_info.get_data : attribute_info → attribute_info_Data
  | attribute_info.mk _ _ d => d

/-- Decode one exception-table row (inlined loop body of the Code arm of
`parse_info`). -/
def read_exception_info : DecM exception_info := do
  let start_pc ← read_u16
  let end_pc ← read_u16
  let handler_pc ← read_u16
  let catch_type ← read_u16
  pure { start_pc := start_pc, end_pc := end_pc, handler_pc := handler_pc,
         catch_type := catch_type }

/-- Decode one InnerClasses row (inlined loop body in `parse_info`). -/
def read_inner_class : DecM inner_class := do
  let inner_class_info_index ← read_u16
  let outer_class_info_index ← read_u16
  let inner_name_index ← read_u16
  let inner_class_access_flags ← read_u16
  pure { inner_class_info_index := inner_class_info_index,
         outer_class_info_index := outer_class_info_index,
         inner_name_index := inner_name_index,
         inner_class_access_flags := inner_class_access_flags }

/-- Decode one LineNumberTable row (inlined loop body in `parse_info`). -/
def read_line_number_entry : DecM line_number_table_entry := do
  let start_pc ← read_u16
  let line_number ← read_u16
  pure { start_pc := start_pc, line_number := line_number }

/-- Decode one LocalVariableTable row (inlined loop body in
`parse_info`). -/
def read_local_variable_entry : DecM local_variable_table_entry := do
  let start_pc ← read_u16
  let length ← read_u16
  let name_index ← read_u16
  let descriptor_index ← read_u16
  let index ← read_u16
  pure { start_pc := start_pc, length := length, name_index := name_index,
         descriptor_index := descriptor_index, index := index }

/-- Decode one LocalVariableTypeTable row (inlined loop body in
`parse_info`). -/
def read_local_variable_type_entry : DecM local_variable_type_table_entry := do
  let start_pc ← read_u16
  let length ← read_u16
  let name_index ← read_u16
  let signature_index ← read_u16
  let index ← read_u16
  pure { start_pc := start_pc, length := length, name_index := name_index,
         signature_index := signature_index, index := index }

/-- Decode one BootstrapMethods row (inlined loop body in
`parse_info`). -/
def read_bootstrap_method : DecM bootstrap_method := do
  let bootstrap_method_ref ← read_u16
  let num_bootstrap_arguments ← read_u16
  let bootstrap_arguments ← read_n read_u16 num_bootstrap_arguments
  pure { bootstrap_method_ref := bootstrap_method_ref,
         num_bootstrap_arguments := num_bootstrap_arguments,
         bootstrap_arguments := bootstrap_arguments }

mutual

/-- Decode one element value (`element_value::new` in src/attribute.rs):
the source dispatches on `tag as char`; since `tag` is a `u8`, that is
exactly its Latin-1 code, so the model dispatches on the numeric codes
66 67 68 70 73 74 83 90 115 (B C D F I J S Z s), 101 (e), 99 (c),
64 (the at sign) and 91 (the opening bracket).  An out-of-range tag is
a `panic!`.  Nested annotations and arrays recurse with one unit of
fuel spent per level. -/
def element_value_new (fuel : Nat) : DecM element_value :=
  match fuel with
  | 0 => fun _ => Except.error DecErr.fuelOut
  | fuel + 1 => do
    let tag ← read_u8
    let value ←
      match tag with
      | 66 | 67 | 68 | 70 | 73 | 74 | 83 | 90 | 115 => do
        let i ← read_u16
        pure (element_value_data.const_value_index i)
      | 101 => do
        let type_name_index ← read_u16
        let const_name_index ← read_u16
        pure (element_value_data.enum_const_value type_name_index const_name_index)
      | 99 => do
        let i ← read_u16
        pure (element_value_data.class_info_index i)
      | 64 => do
        let anno ← annotation_new fuel
        pure (element_value_data.annotation_value anno)
      | 91 => do
        let num_values ← read_u16
        let values ← read_element_values num_values fuel
        pure (element_value_data.array_value num_values values)
      | _ => dpanic "Parsed illegal element_value tag"
    pure (element_value.mk tag value)

/-- The `'['` collection loop of `element_value::new`. -/
def read_element_values (n : Nat) (fuel : Nat) : DecM (List element_value) :=
  match fuel with
  | 0 => fun _ => Except.error DecErr.fuelOut
  | fuel + 1 =>
    match n with
    | 0 => pure []
    | m + 1 => do
      let x ← element_value_new fuel
      let xs ← read_element_values m fuel
      pure (x :: xs)

/-- Decode one annotation record (`annotation::new` in
src/attribute.rs). -/
def annotation_new (fuel : Nat) : DecM AnnotationRec :=
  match fuel with
  | 0 => fun _ => Except.error DecErr.fuelOut
  | fuel + 1 => do
    let type_index ← read_u16
    let num_element_value_pairs ← read_u16
    let element_value_pairs ← read_ev_pairs num_element_value_pairs fuel
    pure (AnnotationRec.mk type_index num_element_value_pairs element_value_pairs)

/-- The pair-collection loop of `annotation::new`. -/
def read_ev_pairs (n : Nat) (fuel : Nat) : DecM (List element_value_pair) :=
  match fuel with
  | 0 => fun _ => Except.error DecErr.fuelOut
  | fuel + 1 =>
    match n with
    | 0 => pure []
    | m + 1 => do
      let element_name_index ← read_u16
      let value ← element_value_new fuel
      let xs ← read_ev_pairs m fuel
      pure (element_value_pair.mk element_name_index value :: xs)

/-- The annotation-collection loops of the Runtime(In)VisibleAnnotations
arms of `parse_info`. -/
def read_annotation_records (n : Nat) (fuel : Nat) : DecM (List AnnotationRec) :=
  match fuel with
  | 0 => fun _ => Except.error DecErr.fuelOut
  | fuel + 1 =>
    match n with
    | 0 => pure []
    | m + 1 => do
      let x ← annotation_new fuel
      let xs ← read_annotation_records m fuel
      pure (x :: xs)

/-- The per-parameter loops of the ParameterAnnotations arms of
`parse_info`. -/
def read_parameter_annotation_lists (n : Nat) (fuel : Nat) : DecM (List annotation_list) :=
  match fuel with
  | 0 => fun _ => Except.error DecErr.fuelOut
  | fuel + 1 =>
    match n with
    | 0 => pure []
    | m + 1 => do
      let num ← read_u16
      let annos ← read_annotation_records num fuel
      let xs ← read_parameter_annotation_lists m fuel
      pure ({ num_annotations := num, annotations := annos } :: xs)

/-- Decode one attribute (`attribute_info::new` in src/attribute.rs):
read the name index and byte length, resolve the name through the
constant pool (a panic if the entry is not Utf8), then dispatch on the
name. -/
def attribute_info_new (pool : ConstantPool) (fuel : Nat) : DecM attribute_info :=
  match fuel with
  | 0 => fun _ => Except.error DecErr.fuelOut
  | fuel + 1 => do
    let attribute_name_index ← read_u16
    let attribute_length ← read_u32
    let item ← liftE (get_entry pool attribute_name_index)
    let attribute_name ←
      match item with
      | cp_info.CONSTANT_Utf8_info bytes => pure bytes
      | _ => dpanic "attribute_name pointed to non CONSTANT_Utf8_info"
    let info ← parse_info pool attribute_length attribute_name fuel
    pure (attribute_info.mk attribute_name_index attribute_length info)

/-- The name dispatch `attribute_info::parse_info` of src/attribute.rs.
An unrecognized name is preserved opaquely as `Unknown_attribute` after
reading `attribute_length` raw bytes — never a fault. -/
def parse_info (pool : ConstantPool) (attribute_length : Nat) (name : String)
    (fuel : Nat) : DecM attribute_info_Data :=
  match fuel with
  | 0 => fun _ => Except.error DecErr.fuelOut
  | fuel + 1 =>
    match name with
    | "ConstantValue" => do
      let constantvalue_index ← read_u16
      pure (attribute_info_Data.ConstantValue_attribute constantvalue_index)
    | "Code" => do
      let max_stack ← read_u16
      let max_locals ← read_u16
      let code_length ← read_u32
      let code ← read_exact code_length
      let exception_table_length ← read_u16
      let exception_table ← read_n read_exception_info exception_table_length
      let attributes_count ← read_u16
      let attributes ← read_attributes pool attributes_count fuel
      pure (attribute_info_Data.Code_attribute max_stack max_locals code_length code
        exception_table_length exception_table attributes_count attributes)
    | "StackMapTable" => do
      let number_of_entries ← read_u16
      let entries ← read_n stack_map_frame_new number_of_entries
      pure (attribute_info_Data.StackMapTable_attribute number_of_entries entries)
    | "Exceptions" => do
      let number_of_exceptions ← read_u16
      let exception_index_table ← read_n read_u16 number_of_exceptions
      pure (attribute_info_Data.Exceptions_attribute number_of_exceptions exception_index_table)
    | "InnerClasses" => do
      let number_of_classes ← read_u16
      let classes ← read_n read_inner_class number_of_classes
      pure (attribute_info_Data.InnerClasses_attribute number_of_classes classes)
    | "EnclosingMethod" => do
      let class_index ← read_u16
      let method_index ← read_u16
      pure (attribute_info_Data.EnclosingMethod_attribute class_index method_index)
    | "Synthetic" => pure attribute_info_Data.Synthetic_attribute
    | "Signature" => do
      let signature_index ← read_u16
      pure (attribute_info_Data.Signature_attribute signature_index)
    | "SourceFile" => do
      let sourcefile_index ← read_u16
      pure (attribute_info_Data.SourceFile_attribute sourcefile_index)
    | "SourceDebugExtension" => do
      let debug_extension ← read_exact attribute_length
      pure (attribute_info_Data.SourceDebugExtension debug_extension)
    | "LineNumberTable" => do
      let line_number_table_length ← read_u16
      let line_number_table ← read_n read_line_number_entry line_number_table_length
      pure (attribute_info_Data.LineNumberTable_attribute line_number_table_length line_number_table)
    | "LocalVariableTable" => do
      let local_variable_table_length ← read_u16
      let local_variable_table ← read_n read_local_variable_entry local_variable_table_length
      pure (attribute_info_Data.LocalVariableTable_attribute local_variable_table_length
        local_variable_table)
    | "LocalVariableTypeTable" => do
      let local_variable_type_table_length ← read_u16
      let local_variable_type_table ←
        read_n read_local_variable_type_entry local_variable_type_table_length
      pure (attribute_info_Data.LocalVariableTypeTable_attribute
        local_variable_type_table_length local_variable_type_table)
    | "Deprecated" => pure attribute_info_Data.Deprecated_attribute
    | "RuntimeVisibleAnnotations" => do
      let num ← read_u16
      let annos ← read_annotation_records num fuel
      pure (attribute_info_Data.RuntimeVisibleAnnotations_attribute num annos)
    | "RuntimeInvisibleAnnotations" => do
      let num ← read_u16
      let annos ← read_annotation_records num fuel
      pure (attribute_info_Data.RuntimeInvisibleAnnotations_attribute num annos)
    | "RuntimeVisibleParameterAnnotations" => do
      let num_parameters ← read_u8
      let parameter_lists ← read_parameter_annotation_lists num_parameters fuel
      pure (attribute_info_Data.RuntimeVisibleParameterAnnotations_attribute num_parameters
        parameter_lists)
    | "RuntimeInvisibleParameterAnnotations" => do
      let num_parameters ← read_u8
      let parameter_lists ← read_parameter_annotation_lists num_parameters fuel
      pure (attribute_info_Data.RuntimeInvisibleParameterAnnotations_attribute num_parameters
        parameter_lists)
    | "AnnotationDefault" => do
      let default_value ← element_value_new fuel
      pure (attribute_info_Data.AnnotationDefault_attribute default_value)
    | "BootstrapMethods" => do
      let num ← read_u16
      let methods ← read_n read_bootstrap_method num
      pure (attribute_info_Data.BootstrapMethods_attribute num methods)
    | _ => do
      let infoVec ← read_exact attribute_length
      pure (attribute_info_Data.Unknown_attribute infoVec)

/-- The `read_attributes` loop of src/attribute.rs. -/
def read_attributes (pool : ConstantPool) (n : Nat) (fuel : Nat) : DecM (List attribute_info) :=
  match fuel with
  | 0 => fun _ => Except.error DecErr.fuelOut
  | fuel + 1 =>
    match n with
    | 0 => pure []
    | m + 1 => do
      let x ← attribute_info_new pool fuel
      let xs ← read_attributes pool m fuel
      pure (x :: xs)

end

/-- Raw field table row (`field_info` in src/field.rs). -/
structure field_info : Type where
  access_flags : Nat
  name_index : Nat
  descriptor_index : Nat
  attributes_count : Nat
  attributes : List attribute_info

/-- Decode one raw field row (`field_info::new` in src/field.rs). -/
def field_info_new (pool : ConstantPool) (fuel : Nat) : DecM field_info := do
  let access_flags ← read_u16
  let name_index ← read_u16
  let descriptor_index ← read_u16
  let attributes_count ← read_u16
  let attributes ← read_attributes pool attributes_count fuel
  pure { access_flags := access_flags, name_index := name_index,
         descriptor_index := descriptor_index, attributes_count := attributes_count,
         attributes := attributes }

/-- A named field of a class (`FieldInfo` in src/field.rs). -/
structure FieldInfo : Type where
  name : String
  parent_class : ClassRef
  descriptor : FieldDescriptor
  index : Nat

/-- The `for index in 0..length` loop of `read_fields` (src/field.rs):
resolve name and descriptor text through the constant pool (panicking
lookups) and parse the descriptor (panicking parser). -/
def read_fields_loop (pool : ConstantPool) (self_reference_name : String)
    (index : Nat) : Nat → Nat → DecM (List FieldInfo)
  | 0, _ => pure []
  | m + 1, fuel => do
    let field_meta ← field_info_new pool fuel
    let name ← liftE (get_string_entry pool field_meta.name_index)
    let descriptor_str ← liftE (get_string_entry pool field_meta.descriptor_index)
    let descriptor ← liftE (parse_field_descriptor_str descriptor_str)
    let rest ← read_fields_loop pool self_reference_name (index + 1) m fuel
    pure ({ name := name, parent_class := ClassRef.Symbolic self_reference_name,
            descriptor := descriptor, index := index } :: rest)

/-- `read_fields` in src/field.rs. -/
def read_fields (pool : ConstantPool) (self_reference_name : String)
    (length : Nat) (fuel : Nat) : DecM (List FieldInfo) :=
  read_fields_loop pool self_reference_name 0 length fuel

/-- Raw method table row (`method_info` in src/method.rs). -/
structure method_info : Type where
  access_flags : Nat
  name_index : Nat
  descriptor_index : Nat
  attributes_count : Nat
  attributes : List attribute_info

/-- The header reads of `method_info::new` use `.unwrap()` instead of
`?` (src/method.rs lines 57-60), so a truncated stream panics here
rather than returning a format fault. -/
def read_u16_unwrapped : DecM Nat :=
  fun s =>
    match read_u16 s with
    | Except.ok r => Except.ok r
    | Except.error _ => Except.error (DecErr.panicked "unwrap of io error in method_info")

/-- Decode one raw method row (`method_info::new` in src/method.rs). -/
def method_info_new (pool : ConstantPool) (fuel : Nat) : DecM method_info := do
  let access_flags ← read_u16_unwrapped
  let name_index ← read_u16_unwrapped
  let descriptor_index ← read_u16_unwrapped
  let attributes_count ← read_u16_unwrapped
  let attributes ← read_attributes pool attributes_count fuel
  pure { access_flags := access_flags, name_index := name_index,
         descriptor_index := descriptor_index, attributes_count := attributes_count,
         attributes := attributes }

/-- A named method of a class (`MethodInfo` in src/method.rs); `code` is
always created empty by `read_methods`. -/
structure MethodInfo : Type where
  name : String
  parent_class : ClassRef
  descriptor : MethodDescriptor
  code : List Nat

/-- The collection loop of `read_methods` (src/method.rs). -/
def read_methods_loop (pool : ConstantPool) (self_reference_name : String) :
    Nat → Nat → DecM (List MethodInfo)
  | 0, _ => pure []
  | m + 1, fuel => do
    let method_meta ← method_info_new pool fuel
    let name ← liftE (get_string_entry pool method_meta.name_index)
    let descriptor_str ← liftE (get_string_entry pool method_meta.descriptor_index)
    let descriptor ← liftE (parse_method_descriptor descriptor_str)
    let rest ← read_methods_loop pool self_reference_name m fuel
    pure ({ name := name, parent_class := ClassRef.Symbolic self_reference_name,
            descriptor := descriptor, code := [] } :: rest)

/-- `read_methods` in src/method.rs. -/
def read_methods (pool : ConstantPool) (self_reference_name : String)
    (length : Nat) (fuel : Nat) : DecM (List MethodInfo) :=
  read_methods_loop pool self_reference_name length fuel

/-- The union of the defined `ClassAccessFlag` bits of src/class.rs
(PUBLIC, FINAL, SUPER, INTERFACE, ABSTRACT, SYNTHETIC, ANNOTATION,
ENUM). -/
def class_access_flag_mask : Nat := 30257

/-- The bitflags `from_bits(..).expect(..)` of src/class_file.rs line
103: any set bit outside the defined mask is a panic.  35278 is the
16-bit complement of the mask. -/
def class_access_flag_from_bits (v : Nat) : Except DecErr Nat :=
  if Nat.land v 35278 = 0 then Except.ok v
  else Except.error (DecErr.panicked "Couldn't parse Class Access Flags")

/-- The numeric value of `ClassAccessFlag::ACC_INTERFACE`. -/
def acc_interface : Nat := 512

/-- The decoded structural class (`ClassFile` in src/class_file.rs). -/
structure ClassFile : Type where
  magic : Nat
  minor_version : Nat
  major_version : Nat
  constant_pool_count : Nat
  constant_pool : ConstantPool
  access_flags : Nat
  this_class : String
  super_class : Option ClassRef
  interfaces_count : Nat
  interfaces : List ClassRef
  fields_count : Nat
  fields : List FieldInfo
  methods_count : Nat
  methods : List MethodInfo
  attributes_count : Nat
  attributes : List attribute_info

/-- Accessor `ClassFile::get_name`. -/
def ClassFile.get_name (c : ClassFile) : String := c.this_class

/-- Accessor `ClassFile::has_super_class`. -/
def ClassFile.has_super_class (c : ClassFile) : Bool := c.super_class.isSome

/-- Accessor `ClassFile::get_super_class`. -/
def ClassFile.get_super_class (c : ClassFile) : Option ClassRef := c.super_class

/-- Accessor `ClassFile::get_access_flags`. -/
def ClassFile.get_access_flags (c : ClassFile) : Nat := c.access_flags

/-- Everything `ClassFile::new` (src/class_file.rs) does after reading
the magic word, in source order: version fields and ceiling check,
constant pool, access flags, this/super/interface references resolved
through the pool (panicking on non-Class/non-Utf8 entries), field,
method and attribute tables.  The magic slot of the record is filled
with 0 here; `class_file_new` overwrites it with the value it read —
the split makes explicit that nothing after the first four bytes
depends on them. -/
def class_file_body (fuel : Nat) : DecM ClassFile := do
  let minor_version ← read_u16
  let major_version ← read_u16
  if major_version > 52 then
    dfault ClassLoadingError.UnsupportedClassVersionError
  else do
    let constant_pool_count ← read_u16
    let constant_pool ← read_constant_pool constant_pool_count fuel
    let af_raw ← read_u16
    let access_flags ← liftE (class_access_flag_from_bits af_raw)
    let this_class_index ← read_u16
    let this_class_data ← liftE (get_entry constant_pool this_class_index)
    let this_class ←
      match this_class_data with
      | cp_info.CONSTANT_Class_info name_index =>
        liftE (get_string_entry constant_pool name_index)
      | _ => dpanic "ClassFile this_class pointed to non CONSTANT_Class_info"
    let super_class_index ← read_u16
    let super_class ←
      if super_class_index = 0 then
        pure Option.none
      else do
        let super_class_data ← liftE (get_entry constant_pool super_class_index)
        match super_class_data with
        | cp_info.CONSTANT_Class_info name_index => do
          let super_class_name ← liftE (get_string_entry constant_pool name_index)
          pure (Option.some (ClassRef.Symbolic super_class_name))
        | _ => dpanic "ClassFile super_class did not point to CONSTANT_Class_info"
    let interfaces_count ← read_u16
    let interface_indices ← read_n read_u16 interfaces_count
    let interfaces ← List.mapM (fun i => do
        let class_info ← liftE (get_entry constant_pool i)
        match class_info with
        | cp_info.CONSTANT_Class_info name_index => do
          let n ← liftE (get_string_entry constant_pool name_index)
          pure (ClassRef.Symbolic n)
        | _ => dpanic "ClassFile interfaces index did not contain CONSTANT_Class_info")
      interface_indices
    let fields_count ← read_u16
    let fields ← read_fields constant_pool this_class fields_count fuel
    let methods_count ← read_u16
    let methods ← read_methods constant_pool this_class methods_count fuel
    let attributes_count ← read_u16
    let attributes ← read_attributes constant_pool attributes_count fuel
    pure { magic := 0, minor_version := minor_version, major_version := major_version,
           constant_pool_count := constant_pool_count, constant_pool := constant_pool,
           access_flags := access_flags, this_class := this_class,
           super_class := super_class, interfaces_count := interfaces_count,
           interfaces := interfaces, fields_count := fields_count, fields := fields,
           methods_count := methods_count, methods := methods,
           attributes_count := attributes_count, attributes := attributes }

/-- `ClassFile::new` in src/class_file.rs: read the four magic bytes
(stored, never compared against anything), then decode the rest. -/
def class_file_new (fuel : Nat) : DecM ClassFile := do
  let magic ← read_u32
  let c ← class_file_body fuel
  pure { c with magic := magic }

/-- Generous fuel for a complete decode of `bytes`: every recursion
step of the decoder consumes input, so any bound well above the stream
length works. -/
def decode_fuel (bytes : List Nat) : Nat := 4 * bytes.length + 64

/-- Decode a class file from its bytes, as `load_file_class` does with
its `Cursor`; trailing bytes after the attribute table are ignored. -/
def class_file_decode (bytes : List Nat) : Except DecErr (ClassFile × List Nat) :=
  class_file_new (decode_fuel bytes) bytes

/-- One class-path root (`ClassPath` in src/class_loader.rs and
src/class_path.rs).  The filesystem directory and the opened zip
archive are external collaborators; both are modelled at their
observable boundary as a finite map from entry name to entry bytes
(`path.exists` + `File::open` for a directory, `archive.by_name` for a
jar, any archive miss yielding `Ok(None)`). -/
inductive ClassPath : Type where
  | Directory : List (String × List Nat) → ClassPath
  | Jar : List (String × List Nat) → ClassPath

/-- Entries of a root, used only to size the loader's fuel. -/
def root_entries : ClassPath → List (String × List Nat)
  | ClassPath.Directory es => es
  | ClassPath.Jar es => es

/-- `ClassLoader::search_directory`: present entries yield their bytes,
absent ones `None`. -/
def search_directory (base_dir : List (String × List Nat))
    (class_file_name : String) : Option (List Nat) :=
  List.lookup class_file_name base_dir

/-- `ClassLoader::search_archive`: same observable behaviour over the
archive index. -/
def search_archive (archive : List (String × List Nat))
    (class_file_name : String) : Option (List Nat) :=
  List.lookup class_file_name archive

/-- The root iteration of `search_classpath` (identical in
src/class_loader.rs lines 168-189 and src/class_path.rs lines 30-54):
first hit returns immediately, exhausting the list is
`NoClassDefFoundError`. -/
def search_classpath_loop (class_file_name : String) :
    List ClassPath → Except ClassLoadingError (List Nat)
  | [] => Except.error ClassLoadingError.NoClassDefFoundError
  | root :: rest =>
    match
      (match root with
       | ClassPath.Directory es => search_directory es class_file_name
       | ClassPath.Jar es => search_archive es class_file_name) with
    | Option.some bytes => Except.ok bytes
    | Option.none => search_classpath_loop class_file_name rest

/-- `search_classpath`: append `.class` to the requested name and try
the roots strictly in configured order. -/
def search_classpath (classpath : List ClassPath) (class_name : String) :
    Except ClassLoadingError (List Nat) :=
  search_classpath_loop (class_name ++ ".class") classpath

/-- A synthesized array class (`ClassArray` in src/class_array.rs). -/
structure ClassArray : Type where
  dimensions : Nat
  component_type : FieldDescriptor
  access_flags : Nat
  name : String

/-- Accessor `ClassArray::get_access_flags`. -/
def ClassArray.get_access_flags (c : ClassArray) : Nat := c.access_flags

/-- A loaded class (the `Class` enum of src/class.rs; the source name
collides with a Mathlib declaration, hence the V suffix). -/
inductive ClassV : Type where
  | File : ClassFile → ClassV
  | Array : ClassArray → ClassV

/-- Accessor `Class::get_name`. -/
def ClassV.get_name : ClassV → String
  | ClassV.File c => c.get_name
  | ClassV.Array c => c.name

/-- Accessor `Class::get_access_flags`. -/
def ClassV.get_access_flags : ClassV → Nat
  | ClassV.File c => c.get_access_flags
  | ClassV.Array c => c.get_access_flags

/-- Why the process aborted: `load_class`'s `.unwrap()` on a fault
(class_loader.rs line 90), or a direct `panic!` message. -/
inductive PanicReason : Type where
  | unwrapped : ClassLoadingError → PanicReason
  | msg : String → PanicReason
deriving DecidableEq

/-- The mutable state of `ClassLoader` (src/class_loader.rs): the
name-to-handle `class_map` (a HashMap, modelled as an association list
whose most recent insertion shadows older ones) and the `classes`
arena, where a handle is the allocation index — the model's notion of
reference identity.  The `classpath` field is passed separately since
the loader never mutates it, and the string arena is not modelled
(Lean strings are values). -/
structure LoaderState : Type where
  class_map : List (String × Nat)
  classes : List ClassV

/-- Outcome of a loader operation: a value, a returned `Err` fault, a
panic (process abort), or fuel exhaustion (embedding artifact only). -/
inductive LRes (α : Type) : Type where
  | ok : α → LRes α
  | err : ClassLoadingError → LRes α
  | panic : PanicReason → LRes α
  | fuelOut : LRes α

/-- `ClassLoader::register_class`: allocate in the arena, insert under
the requested name, return the fresh handle. -/
def register_class (st : LoaderState) (class_name : String) (c : ClassV) :
    Nat × LoaderState :=
  let class_ref := st.classes.length
  (class_ref,
    { class_map := (class_name, class_ref) :: st.class_map,
      classes := st.classes ++ [c] })

/-- Count the run of leading `'['` markers of an array-class name (the
`while name_chars.next() == '['` loop of `load_array_class`). -/
def count_leading_brackets : List Char → Nat
  | [] => 0
  | c :: rest => if c = '[' then count_leading_brackets rest + 1 else 0

/-- `ClassLoader::load_array_class` (src/class_loader.rs lines 99-108):
count the dimension markers into a `u8` (which wraps mod 256 in a
release build — a debug build aborts at 256), slice the component
descriptor after that many characters, parse it with the panicking
field-descriptor parser, and build a `ClassArray` with
`ACC_PUBLIC` access flags and the full bracketed name. -/
def load_array_class (class_name : String) : LRes ClassArray :=
  let dimensions := count_leading_brackets class_name.data % 256
  let component_type_str := String.mk (class_name.data.drop dimensions)
  match parse_field_descriptor_str component_type_str with
  | Except.ok component_type =>
    LRes.ok { dimensions := dimensions, component_type := component_type,
              access_flags := 1, name := class_name }
  | Except.error (DecErr.panicked m) => LRes.panic (PanicReason.msg m)
  | Except.error (DecErr.fault e) => LRes.err e
  | Except.error DecErr.fuelOut => LRes.fuelOut

/-- Test for the array branch of `load_class`
(`class_name.starts_with('[')`). -/
def starts_with_bracket (s : String) : Bool :=
  match s.data with
  | [] => false
  | c :: _ => c == '['

mutual

/-- `ClassLoader::create_class_rec` (src/class_loader.rs lines 70-78):
cache hit returns the existing handle with no other work; a miss loads
the class and registers it under the requested name. -/
def create_class_rec (classpath : List ClassPath) (st : LoaderState)
    (class_name : String) (inheritance_stack : List String) (fuel : Nat) :
    LRes (Nat × LoaderState) :=
  match fuel with
  | 0 => LRes.fuelOut
  | fuel + 1 =>
    let already_loaded := (List.lookup class_name st.class_map).isSome
    if already_loaded then
      match List.lookup class_name st.class_map with
      | Option.some h => LRes.ok (h, st)
      | Option.none => LRes.panic (PanicReason.msg "get_class on missing name")
    else
      match load_class classpath st class_name inheritance_stack fuel with
      | LRes.ok (c, st') =>
        let alloc := register_class st' class_name c
        LRes.ok (alloc.1, alloc.2)
      | LRes.err e => LRes.err e
      | LRes.panic r => LRes.panic r
      | LRes.fuelOut => LRes.fuelOut

/-- `ClassLoader::load_class` (src/class_loader.rs lines 86-94): array
names are synthesized with no class-path access; file names go through
`load_file_class`, whose fault result is `.unwrap()`ed — a fault at
this point panics (aborts the process) instead of propagating. -/
def load_class (classpath : List ClassPath) (st : LoaderState)
    (class_name : String) (inheritance_stack : List String) (fuel : Nat) :
    LRes (ClassV × LoaderState) :=
  match fuel with
  | 0 => LRes.fuelOut
  | fuel + 1 =>
    if starts_with_bracket class_name then
      match load_array_class class_name with
      | LRes.ok arr => LRes.ok (ClassV.Array arr, st)
      | LRes.err e => LRes.err e
      | LRes.panic r => LRes.panic r
      | LRes.fuelOut => LRes.fuelOut
    else
      match load_file_class classpath st class_name inheritance_stack fuel with
      | LRes.ok (cf, st') => LRes.ok (ClassV.File cf, st')
      | LRes.err e => LRes.panic (PanicReason.unwrapped e)
      | LRes.panic r => LRes.panic r
      | LRes.fuelOut => LRes.fuelOut

/-- `ClassLoader::load_file_class` (src/class_loader.rs lines 111-164):
fetch bytes from the class path, decode them, then in source order —
already-registered decoded name is `LinkageError`; decoded name
differing from the requested name is `NoClassDefFoundError`; requested
name already on the inheritance stack is `ClassCircularityError`; a
class with no super class must be java/lang/Object, else a format
fault; otherwise push the name on the stack, resolve the super
recursively, and reject supers flagged as interfaces. -/
def load_file_class (classpath : List ClassPath) (st : LoaderState)
    (class_name : String) (inheritance_stack : List String) (fuel : Nat) :
    LRes (ClassFile × LoaderState) :=
  match fuel with
  | 0 => LRes.fuelOut
  | fuel + 1 =>
    match search_classpath classpath class_name with
    | Except.error e => LRes.err e
    | Except.ok bytes =>
      match class_file_decode bytes with
      | Except.error (DecErr.fault e) => LRes.err e
      | Except.error (DecErr.panicked m) => LRes.panic (PanicReason.msg m)
      | Except.error DecErr.fuelOut => LRes.fuelOut
      | Except.ok (cls, _) =>
        if (List.lookup cls.get_name st.class_map).isSome then
          LRes.err ClassLoadingError.LinkageError
        else if class_name ≠ cls.get_name then
          LRes.err ClassLoadingError.NoClassDefFoundError
        else if inheritance_stack.contains class_name then
          LRes.err ClassLoadingError.ClassCircularityError
        else if cls.has_super_class = false then
          if cls.get_name = "java/lang/Object" then LRes.ok (cls, st)
          else LRes.err (ClassLoadingError.ClassFormatError "Class does not have direct superclass")
        else
          match cls.get_super_class with
          | Option.none => LRes.panic (PanicReason.msg "unwrap of missing super class")
          | Option.some super_class_ref =>
            let inheritance_stack' := cls.get_name :: inheritance_stack
            match super_class_ref with
            | ClassRef.Static _ =>
              LRes.panic (PanicReason.msg "Class is being loaded but already linked")
            | ClassRef.Symbolic super_class_name =>
              match create_class_rec classpath st super_class_name inheritance_stack' fuel with
              | LRes.ok (super_handle, st') =>
                match List.get? st'.classes super_handle with
                | Option.none => LRes.panic (PanicReason.msg "dangling class handle")
                | Option.some super_class =>
                  if Nat.land super_class.get_access_flags acc_interface ≠ 0 then
                    LRes.err ClassLoadingError.IncompatibleClassChangeError
                  else
                    LRes.ok (cls, st')
              | LRes.err e => LRes.err e
              | LRes.panic r => LRes.panic r
              | LRes.fuelOut => LRes.fuelOut

end

/-- Fuel that always suffices for a full super-chain walk: three units
per loader level, with at most one level per class-path entry plus the
java/lang/Object base and slack. -/
def loader_fuel (classpath : List ClassPath) : Nat :=
  3 * ((classpath.map (fun r => (root_entries r).length)).sum + 2)

/-- `ClassLoader::create_class` (src/class_loader.rs lines 64-66): the
public request entry point; the cycle-detection set starts fresh
(`&mut HashSet::new()`) on every top-level call. -/
def create_class (classpath : List ClassPath) (st : LoaderState)
    (class_name : String) : LRes (Nat × LoaderState) :=
  create_class_rec classpath st class_name [] (loader_fuel classpath)

/-- Bytes of a minimal class file named `A` whose super class is `A`
itself: magic CAFEBABE, version 52.0, a three-slot constant pool
(Class-ref at 1 pointing to the Utf8 `A` at 2), ACC_SUPER flags,
this_class and super_class both slot 1, and empty interface, field,
method and attribute tables. -/
def classA_bytes : List Nat :=
  [202,254,186,190, 0,0, 0,52, 0,3, 7,0,2, 1,0,1,65, 0,32, 0,1, 0,1, 0,0, 0,0, 0,0, 0,0]

/-- The same class file as `classA_bytes` with the magic word zeroed. -/
def classA_zeromagic : List Nat :=
  [0,0,0,0, 0,0, 0,52, 0,3, 7,0,2, 1,0,1,65, 0,32, 0,1, 0,1, 0,0, 0,0, 0,0, 0,0]

/-- A class file declaring its own name as `B` (with super `B`), to be
served under the entry `A.class`. -/
def classB_as_A_bytes : List Nat :=
  [202,254,186,190, 0,0, 0,52, 0,3, 7,0,2, 1,0,1,66, 0,32, 0,1, 0,1, 0,0, 0,0, 0,0, 0,0]

/-- A minimal well-formed `java/lang/Object`: no super class
(super_class slot 0), PUBLIC|SUPER flags, empty tables. -/
def object_bytes : List Nat :=
  [202,254,186,190, 0,0, 0,52, 0,3, 7,0,2,
   1,0,16, 106,97,118,97,47,108,97,110,103,47,79,98,106,101,99,116,
   0,33, 0,1, 0,0, 0,0, 0,0, 0,0, 0,0]

/-- An array-class name with 256 leading dimension markers, enough to
wrap the `u8` dimension counter. -/
def name256 : String := String.mk (List.replicate 256 '[' ++ ['I'])

/-- A class path whose only root serves `classA_bytes` under `A.class`. -/
def cpA : List ClassPath := [ClassPath.Directory [("A.class", classA_bytes)]]

/-- A class path whose only root serves `classB_as_A_bytes` under
`A.class`. -/
def cpBA : List ClassPath := [ClassPath.Directory [("A.class", classB_as_A_bytes)]]

/-- A class path whose only root serves `object_bytes` under
`java/lang/Object.class`. -/
def cp_object : List ClassPath := [ClassPath.Directory [("java/lang/Object.class", object_bytes)]]

/-- The loader's initial state: empty cache, empty arena. -/
def loader_st0 : LoaderState := { class_map := [], classes := [] }

/-- A state in which the name `B` is already registered (to handle 0). -/
def st_B : LoaderState :=
  { class_map := [("B", 0)],
    classes := [ClassV.Array { dimensions := 1, component_type := FieldDescriptor.Integer,
                               access_flags := 1, name := "B" }] }

/-- A throwaway record used as the unreachable fallback of the
concrete-decode accessors below. -/
def classfile_default : ClassFile :=
  { magic := 0, minor_version := 0, major_version := 0, constant_pool_count := 0,
    constant_pool := [], access_flags := 0, this_class := "", super_class := Option.none,
    interfaces_count := 0, interfaces := [], fields_count := 0, fields := [],
    methods_count := 0, methods := [], attributes_count := 0, attributes := [] }

/-- The decoded form of `classB_as_A_bytes`. -/
def class_BA : ClassFile :=
  match class_file_decode classB_as_A_bytes with
  | Except.ok (c, _) => c
  | Except.error _ => classfile_default

/-- The decoded form of `classA_bytes`. -/
def class_A : ClassFile :=
  match class_file_decode classA_bytes with
  | Except.ok (c, _) => c
  | Except.error _ => classfile_default

/-- The loader state after a successful top-level request for
`java/lang/Object` against `cp_object`. -/
def st_object : LoaderState :=
  match create_class cp_object loader_st0 "java/lang/Object" with
  | LRes.ok (_, st) => st
  | _ => loader_st0

theorem root_search_eq (root : ClassPath) (cfn : String) :
    (match root with
     | ClassPath.Directory es => search_directory es cfn
     | ClassPath.Jar es => search_archive es cfn) = List.lookup cfn (root_entries root) := by
  cases root <;> rfl

theorem search_classpath_loop_cons (cfn : String) (r : ClassPath) (rest : List ClassPath) :
    search_classpath_loop cfn (r :: rest) =
      match List.lookup cfn (root_entries r) with
      | Option.some bytes => Except.ok bytes
      | Option.none => search_classpath_loop cfn rest := by
  cases r <;> rfl

/-- C5: the class-path search tries the configured roots strictly in
order and returns the first root's bytes for `name.class`, with later
roots never consulted after a hit (the result is invariant under
replacing them); it reports NoClassDefFoundError exactly when no root
carries the entry, i.e. only after every root has been tried. -/
theorem search_classpath_first_hit :
    (∀ (pre : List ClassPath) (r : ClassPath) (post post' : List ClassPath)
       (name : String) (bytes : List Nat),
       (∀ r' ∈ pre, List.lookup (name ++ ".class") (root_entries r') = Option.none) →
       List.lookup (name ++ ".class") (root_entries r) = Option.some bytes →
       search_classpath (pre ++ r :: post) name = Except.ok bytes ∧
         search_classpath (pre ++ r :: post) name = search_classpath (pre ++ r :: post') name) ∧
    (∀ (roots : List ClassPath) (name : String),
       search_classpath roots name = Except.error ClassLoadingError.NoClassDefFoundError ↔
         ∀ r ∈ roots, List.lookup (name ++ ".class") (root_entries r) = Option.none) := by
  constructor
  · intro pre r post post' name bytes hpre hr
    induction pre with
    | nil =>
      constructor <;>
        simp [search_classpath, List.nil_append, search_classpath_loop_cons, hr]
    | cons p ps ih =>
      have hp : List.lookup (name ++ ".class") (root_entries p) = Option.none :=
        hpre p (by simp)
      have ih' := ih (fun r' h => hpre r' (by simp [h]))
      constructor
      · rw [List.cons_append, search_classpath, search_classpath_loop_cons, hp]
        exact ih'.1
      · rw [List.cons_append, List.cons_append, search_classpath, search_classpath,
          search_classpath_loop_cons, search_classpath_loop_cons, hp]
        exact ih'.2
  · intro roots name
    induction roots with
    | nil =>
      simp [search_classpath, search_classpath_loop]
    | cons r rs ih =>
      rw [search_classpath, search_classpath_loop_cons]
      cases h : List.lookup (name ++ ".class") (root_entries r) with
      | none =>
        simp only [h]
        rw [search_classpath] at ih
        rw [ih]
        constructor
        · intro hall r' hr'
          cases hr' with
          | head => exact h
          | tail _ hm => exact hall r' hm
        · intro hall r' hr'
          exact hall r' (List.mem_cons_of_mem _ hr')
      | some b =>
        simp only [h]
        constructor
        · intro hc; cases hc
        · intro hall
          have := hall r (by simp)
          rw [this] at h
          cases h

theorem lookup_after_create_ok :
    ∀ (classpath : List ClassPath) (st : LoaderState) (name : String)
      (stack : List String) (fuel : Nat) (h : Nat) (st' : LoaderState),
      create_class_rec classpath st name stack fuel = LRes.ok (h, st') →
      List.lookup name st'.class_map = Option.some h := by
  intro classpath st name stack fuel h st' hok
  cases fuel with
  | zero => simp [create_class_rec] at hok
  | succ f =>
    cases hl : List.lookup name st.class_map with
    | some h0 =>
      simp [create_class_rec, hl] at hok
      obtain ⟨h1, h2⟩ := hok
      subst h1; subst h2
      exact hl
    | none =>
      simp only [create_class_rec, hl, Option.isSome_none, Bool.false_eq_true,
        if_false] at hok
      cases hres : load_class classpath st name stack f with
      | ok p =>
        rw [hres] at hok
        cases p with
        | mk c st2 =>
          simp only [register_class] at hok
          cases hok
          simp [List.lookup]
      | err e => rw [hres] at hok; cases hok
      | panic r => rw [hres] at hok; cases hok
      | fuelOut => rw [hres] at hok; cases hok

theorem cached_hit :
    ∀ (classpath : List ClassPath) (st : LoaderState) (name : String)
      (stack : List String) (h fuel : Nat),
      List.lookup name st.class_map = Option.some h →
      create_class_rec classpath st name stack (fuel + 1) = LRes.ok (h, st) := by
  intro classpath st name stack h fuel hl
  simp [create_class_rec, hl]

theorem loader_fuel_succ : ∀ classpath : List ClassPath, ∃ k, loader_fuel classpath = k + 1 := by
  intro classpath
  refine ⟨loader_fuel classpath - 1, ?_⟩
  have : 6 ≤ loader_fuel classpath := by
    unfold loader_fuel
    omega
  omega

theorem scan_to_semicolon_no_fault :
    ∀ (chars : List (Nat × Char)) (last : Nat) (e : ClassLoadingError),
      scan_to_semicolon last chars ≠ Except.error (DecErr.fault e) := by
  intro chars
  induction chars with
  | nil => intro last e; simp [scan_to_semicolon]
  | cons c rest ih =>
    intro last e
    cases c with
    | mk i ch =>
      simp only [scan_to_semicolon]
      split
      · simp
      · exact ih (last + 1) e

theorem skip_brackets_no_fault :
    ∀ (chars : List (Nat × Char)) (e : ClassLoadingError),
      skip_brackets chars ≠ Except.error (DecErr.fault e) := by
  intro chars
  induction chars with
  | nil => intro e; simp [skip_brackets]
  | cons c rest ih =>
    intro e
    cases c with
    | mk i ch =>
      simp only [skip_brackets]
      split
      · exact ih e
      · simp

theorem parse_field_descriptor_reference_no_fault :
    ∀ (source : List Char) (chars : List (Nat × Char)) (e : ClassLoadingError),
      parse_field_descriptor_reference source chars ≠ Except.error (DecErr.fault e) := by
  intro source chars e
  cases chars with
  | nil => simp [parse_field_descriptor_reference]
  | cons c rest =>
    cases c with
    | mk i ch =>
      simp only [parse_field_descriptor_reference]
      cases hs : scan_to_semicolon (i + 1) rest with
      | ok p => simp
      | error e' =>
        simp only []
        intro hcon
        cases hcon
        exact scan_to_semicolon_no_fault rest (i + 1) e hs

theorem parse_field_descriptor_index_no_fault :
    ∀ (fuel : Nat) (source : List Char) (chars : List (Nat × Char)) (e : ClassLoadingError),
      parse_field_descriptor_index source fuel chars ≠ Except.error (DecErr.fault e) := by
  intro fuel
  induction fuel with
  | zero => intro source chars e; simp [parse_field_descriptor_index]
  | succ f ih =>
    intro source chars e
    cases chars with
    | nil => simp [parse_field_descriptor_index]
    | cons c rest =>
      cases c with
      | mk i ch =>
        simp only [parse_field_descriptor_index]
        split
        · exact parse_field_descriptor_reference_no_fault source _ e
        · split
          · cases hsk : skip_brackets ((i, ch) :: rest) with
            | error e' =>
              simp only [hsk]
              intro hcon; cases hcon
              exact skip_brackets_no_fault _ e hsk
            | ok after =>
              simp only [hsk]
              cases hp : parse_field_descriptor_index source f after with
              | error e' =>
                simp only [hp]
                intro hcon; cases hcon
                exact ih source after e hp
              | ok p =>
                obtain ⟨fd, last, rest'⟩ := p
                simp [hp]
          · split <;> simp

theorem parse_field_descriptor_str_no_fault :
    ∀ (s : String) (e : ClassLoadingError),
      parse_field_descriptor_str s ≠ Except.error (DecErr.fault e) := by
  intro s e
  unfold parse_field_descriptor_str parse_field_descriptor
  cases hp : parse_field_descriptor_index s.data (s.data.length + 2) (List.enum s.data) with
  | ok p => obtain ⟨fd, last, rest⟩ := p; simp
  | error e' =>
    simp only []
    intro hcon; cases hcon
    exact parse_field_descriptor_index_no_fault _ s.data _ e hp

theorem load_array_class_no_err :
    ∀ (name : String) (e : ClassLoadingError), load_array_class name ≠ LRes.err e := by
  intro name e
  unfold load_array_class
  cases hp : parse_field_descriptor_str
      (String.mk (name.data.drop (count_leading_brackets name.data % 256))) with
  | ok fd => simp [hp]
  | error e' =>
    cases e' with
    | fault e'' =>
      exact absurd hp (parse_field_descriptor_str_no_fault _ e'')
    | panicked m => simp [hp]
    | fuelOut => simp [hp]

theorem load_class_no_err :
    ∀ (classpath : List ClassPath) (st : LoaderState) (name : String)
      (stack : List String) (fuel : Nat) (e : ClassLoadingError),
      load_class classpath st name stack fuel ≠ LRes.err e := by
  intro classpath st name stack fuel e
  cases fuel with
  | zero => simp [load_class]
  | succ f =>
    rw [load_class]
    split
    · cases ha : load_array_class name with
      | ok arr => simp
      | err e' =>
        exact absurd ha (load_array_class_no_err name e')
      | panic r => simp
      | fuelOut => simp
    · cases hf : load_file_class classpath st name stack f with
      | ok p => obtain ⟨cf, st'⟩ := p; simp
      | err e' => simp
      | panic r => simp
      | fuelOut => simp

theorem create_class_rec_no_err :
    ∀ (classpath : List ClassPath) (st : LoaderState) (name : String)
      (stack : List String) (fuel : Nat) (e : ClassLoadingError),
      create_class_rec classpath st name stack fuel ≠ LRes.err e := by
  intro classpath st name stack fuel e
  cases fuel with
  | zero => simp [create_class_rec]
  | succ f =>
    rw [create_class_rec]
    cases hl : List.lookup name st.class_map with
    | some h0 => simp [hl]
    | none =>
      simp only [hl, Option.isSome_none, Bool.false_eq_true, if_false]
      cases hres : load_class classpath st name stack f with
      | ok p => obtain ⟨c, st2⟩ := p; simp
      | err e' => exact absurd hres (load_class_no_err classpath st name stack f e')
      | panic r => simp
      | fuelOut => simp

/-- C2 (amended): the public request `create_class` never returns a
fault value to its caller — every fault raised below it is either
handled into a panic by `load_class`'s `.unwrap()` (process abort,
after which no state is observable) or never escapes — and on success
the requested class is registered in the returned cache under the
requested name with the returned handle. -/
theorem request_never_returns_fault :
    (∀ (classpath : List ClassPath) (st : LoaderState) (name : String)
       (stack : List String) (fuel : Nat) (e : ClassLoadingError),
       create_class_rec classpath st name stack fuel ≠ LRes.err e) ∧
    (∀ (classpath : List ClassPath) (st : LoaderState) (name : String)
       (h : Nat) (st' : LoaderState),
       create_class classpath st name = LRes.ok (h, st') →
       List.lookup name st'.class_map = Option.some h) := by
  constructor
  · exact create_class_rec_no_err
  · intro classpath st name h st' hok
    exact lookup_after_create_ok classpath st name [] (loader_fuel classpath) h st' hok

/-- Witness for C2's theorem at concrete inputs: an empty class path
never yields a returned fault for `A`, and the successful request for
`java/lang/Object` leaves it registered under handle 0. -/
theorem request_never_returns_fault_witness :
    (create_class_rec [] loader_st0 "A" [] 1 ≠ LRes.err ClassLoadingError.LinkageError) ∧
    List.lookup "java/lang/Object" st_object.class_map = Option.some 0 :=
  ⟨request_never_returns_fault.1 [] loader_st0 "A" [] 1 ClassLoadingError.LinkageError,
   request_never_returns_fault.2 cp_object loader_st0 "java/lang/Object" 0 st_object (by rfl)⟩

/-- C4: a request for an already-cached name returns the cached handle
(identity as arena index) with the state unchanged, for every class
path — hence with no class-path lookup, decoding or other I/O — and a
repeat of any successful request returns the identical handle again. -/
theorem cached_request_identity :
    (∀ (classpath : List ClassPath) (st : LoaderState) (name : String) (h fuel : Nat),
       List.lookup name st.class_map = Option.some h →
       create_class_rec classpath st name [] (fuel + 1) = LRes.ok (h, st)) ∧
    (∀ (classpath classpath' : List ClassPath) (st : LoaderState) (name : String)
       (h : Nat) (st' : LoaderState),
       create_class classpath st name = LRes.ok (h, st') →
       create_class classpath' st' name = LRes.ok (h, st')) := by
  constructor
  · intro classpath st name h fuel hl
    exact cached_hit classpath st name [] h fuel hl
  · intro classpath classpath' st name h st' hok
    have hl := lookup_after_create_ok classpath st name [] (loader_fuel classpath) h st' hok
    obtain ⟨k, hk⟩ := loader_fuel_succ classpath'
    rw [create_class, hk]
    exact cached_hit classpath' st' name [] h k hl

/-- Witness for C4's theorem: a state caching `A` at handle 3 answers
from the cache for two different class paths, and re-requesting
`java/lang/Object` after its successful load returns handle 0 and the
same state. -/
theorem cached_request_identity_witness :
    create_class_rec cpA { class_map := [("A", 3)], classes := [] } "A" [] 1 =
      LRes.ok (3, { class_map := [("A", 3)], classes := [] }) ∧
    create_class [] st_object "java/lang/Object" = LRes.ok (0, st_object) :=
  ⟨cached_request_identity.1 cpA { class_map := [("A", 3)], classes := [] } "A" 3 0 (by rfl),
   cached_request_identity.2 cp_object [] loader_st0 "java/lang/Object" 0 st_object (by rfl)⟩

/-- Witness for C5's theorem: with a first root lacking `A.class`, a
second root carrying it, and differing third roots, the search returns
the second root's bytes regardless of the rest, and an empty class
path reports NoClassDefFoundError. -/
theorem search_classpath_first_hit_witness :
    (search_classpath [ClassPath.Directory [], ClassPath.Directory [("A.class", [1])],
        ClassPath.Jar [("A.class", [2])]] "A" = Except.ok [1] ∧
     search_classpath [ClassPath.Directory [], ClassPath.Directory [("A.class", [1])],
        ClassPath.Jar [("A.class", [2])]] "A" =
       search_classpath [ClassPath.Directory [], ClassPath.Directory [("A.class", [1])],
        ClassPath.Directory []] "A") ∧
    (search_classpath [] "A" = Except.error ClassLoadingError.NoClassDefFoundError) := by
  constructor
  · exact search_classpath_first_hit.1 [ClassPath.Directory []]
      (ClassPath.Directory [("A.class", [1])]) [ClassPath.Jar [("A.class", [2])]]
      [ClassPath.Directory []] "A" [1]
      (by intro r' hr'; simp at hr'; subst hr'; rfl) (by rfl)
  · exact (search_classpath_first_hit.2 [] "A").mpr (by intro r hr; simp at hr)

/-- C3 (amended): in `load_file_class` the already-registered check runs
before the requested-name check, so a decoded name that is both
mismatched and registered yields LinkageError; a pure mismatch yields
NoClassDefFoundError, the same fault kind the class-path search uses
for a missing file. -/
theorem registered_check_precedes_name_check :
    ∀ (classpath : List ClassPath) (st : LoaderState) (name : String)
      (stack : List String) (fuel : Nat) (bytes rest : List Nat) (cls : ClassFile),
      search_classpath classpath name = Except.ok bytes →
      class_file_decode bytes = Except.ok (cls, rest) →
      ((List.lookup cls.get_name st.class_map).isSome = true →
         load_file_class classpath st name stack (fuel + 1) =
           LRes.err ClassLoadingError.LinkageError) ∧
      (List.lookup cls.get_name st.class_map = Option.none → name ≠ cls.get_name →
         load_file_class classpath st name stack (fuel + 1) =
           LRes.err ClassLoadingError.NoClassDefFoundError) := by
  intro classpath st name stack fuel bytes rest cls hs hd
  constructor
  · intro hreg
    rw [load_file_class]
    simp only [hs, hd]
    simp [hreg]
  · intro hreg hne
    rw [load_file_class]
    simp only [hs, hd]
    simp [hreg, hne]

/-- C3 counterexample: `A.class` decodes to a class named `B`; with `B`
already registered the result is LinkageError — not a name-mismatch
fault — and with `B` unregistered the mismatch yields
NoClassDefFoundError, the very fault kind used for not-found, not a
distinct NameMismatchFault. -/
theorem name_mismatch_counterexample :
    load_file_class cpBA st_B "A" [] 5 = LRes.err ClassLoadingError.LinkageError ∧
    load_file_class cpBA loader_st0 "A" [] 5 =
      LRes.err ClassLoadingError.NoClassDefFoundError :=
  ⟨rfl, rfl⟩

/-- Witness for C3's theorem at the concrete inputs of the
counterexample environment. -/
theorem registered_check_precedes_name_check_witness :
    load_file_class cpBA st_B "A" [] 6 = LRes.err ClassLoadingError.LinkageError ∧
    load_file_class cpBA loader_st0 "A" [] 6 =
      LRes.err ClassLoadingError.NoClassDefFoundError :=
  ⟨(registered_check_precedes_name_check cpBA st_B "A" [] 5 classB_as_A_bytes []
      class_BA rfl rfl).1 (by rfl),
   (registered_check_precedes_name_check cpBA loader_st0 "A" [] 5 classB_as_A_bytes []
      class_BA rfl rfl).2 (by rfl) (by decide)⟩

theorem read_u32_cons (x0 x1 x2 x3 : Nat) (rest : List Nat) :
    read_u32 (x0 :: x1 :: x2 :: x3 :: rest) =
      Except.ok ((((x0 * 256 + x1) * 256 + x2) * 256 + x3), rest) := rfl

theorem decm_bind_apply {α β : Type} (m : DecM α) (k : α → DecM β) (s : List Nat) :
    (m >>= k) s = match m s with
      | Except.ok (a, s') => k a s'
      | Except.error e => Except.error e := rfl

theorem decm_bind_ok {α β : Type} (m : DecM α) (k : α → DecM β) {s : List Nat}
    {a : α} {s' : List Nat} (h : m s = Except.ok (a, s')) : (m >>= k) s = k a s' := by
  rw [decm_bind_apply, h]

theorem decm_bind_error {α β : Type} (m : DecM α) (k : α → DecM β) {s : List Nat}
    {e : DecErr} (h : m s = Except.error e) : (m >>= k) s = Except.error e := by
  rw [decm_bind_apply, h]

theorem class_file_new_cons (fuel x0 x1 x2 x3 : Nat) (rest : List Nat) :
    class_file_new fuel (x0 :: x1 :: x2 :: x3 :: rest) =
      match class_file_body fuel rest with
      | Except.ok (c, s') =>
        Except.ok ({ c with magic := ((x0 * 256 + x1) * 256 + x2) * 256 + x3 }, s')
      | Except.error e => Except.error e := by
  rw [class_file_new]
  rw [decm_bind_ok read_u32 _ (read_u32_cons x0 x1 x2 x3 rest)]
  cases hb : class_file_body fuel rest with
  | ok p =>
    obtain ⟨c, s'⟩ := p
    rw [decm_bind_ok _ _ hb]
    rfl
  | error e =>
    rw [decm_bind_error _ _ hb]

/-- C9: class-file decoding never inspects the 4-byte magic field: two
streams that differ only in those four bytes fail identically or
succeed with the same remainder and identical records except for the
stored magic, which is exactly the big-endian value of the respective
bytes. -/
theorem magic_never_checked :
    ∀ (fuel a0 a1 a2 a3 b0 b1 b2 b3 : Nat) (rest : List Nat),
      (∀ e, class_file_new fuel (a0 :: a1 :: a2 :: a3 :: rest) = Except.error e ↔
            class_file_new fuel (b0 :: b1 :: b2 :: b3 :: rest) = Except.error e) ∧
      (∀ c s', class_file_new fuel (a0 :: a1 :: a2 :: a3 :: rest) = Except.ok (c, s') →
          class_file_new fuel (b0 :: b1 :: b2 :: b3 :: rest) =
            Except.ok ({ c with magic := ((b0 * 256 + b1) * 256 + b2) * 256 + b3 }, s') ∧
          c.magic = ((a0 * 256 + a1) * 256 + a2) * 256 + a3) := by
  intro fuel a0 a1 a2 a3 b0 b1 b2 b3 rest
  constructor
  · intro e
    rw [class_file_new_cons, class_file_new_cons]
    cases hb : class_file_body fuel rest with
    | ok p => obtain ⟨c, s'⟩ := p; simp
    | error e' => simp
  · intro c s' hok
    rw [class_file_new_cons] at hok
    rw [class_file_new_cons]
    cases hb : class_file_body fuel rest with
    | error e' => rw [hb] at hok; cases hok
    | ok p =>
      obtain ⟨c0, s0⟩ := p
      rw [hb] at hok
      cases hok
      constructor
      · cases c0; rfl
      · cases c0; rfl
/-- Witness for C9's theorem: a truncated stream (nothing after the
magic) fails with the same end-of-file format fault for the CAFEBABE
magic and the zero magic. -/
theorem magic_never_checked_witness :
    class_file_new 5 [202, 254, 186, 190] =
      Except.error (DecErr.fault
        (ClassLoadingError.ClassFormatError "Parsing reached end of Class File")) ∧
    class_file_new 5 [0, 0, 0, 0] =
      Except.error (DecErr.fault
        (ClassLoadingError.ClassFormatError "Parsing reached end of Class File")) :=
  ⟨((magic_never_checked 5 202 254 186 190 0 0 0 0 []).1 _).mpr (by rfl), by rfl⟩

theorem read_n_length {α : Type} (dec : DecM α) :
    ∀ (n : Nat) (s : List Nat) (xs : List α) (s' : List Nat),
      read_n dec n s = Except.ok (xs, s') → xs.length = n := by
  intro n
  induction n with
  | zero =>
    intro s xs s' h
    cases h
    rfl
  | succ m ih =>
    intro s xs s' h
    rw [read_n] at h
    cases hd : dec s with
    | error e => rw [decm_bind_error _ _ hd] at h; cases h
    | ok p =>
      obtain ⟨x, s1⟩ := p
      rw [decm_bind_ok _ _ hd] at h
      cases hr : read_n dec m s1 with
      | error e => rw [decm_bind_error _ _ hr] at h; cases h
      | ok q =>
        obtain ⟨xs0, s2⟩ := q
        rw [decm_bind_ok _ _ hr] at h
        cases h
        exact congrArg Nat.succ (ih s1 xs0 _ hr)

/-- C10: every successfully decoded full_frame entry (frame type 255)
carries an empty stack list, and its locals list holds
number_of_locals + number_of_stack_items entries — the declared stack
items are appended to the locals vector, never to the stack vector
(attribute.rs line 306). -/
theorem full_frame_stack_items_go_to_locals :
    ∀ (s : List Nat) (frame : stack_map_frame) (rest : List Nat),
      stack_map_frame_new s = Except.ok (frame, rest) →
      frame.frame_type = 255 →
      ∃ od nl items ns,
        frame.frame_data = stack_map_frame_data.full_frame od nl items ns [] ∧
        items.length = nl + ns := by
  intro s frame rest hok ht
  rw [stack_map_frame_new] at hok
  cases h8 : read_u8 s with
  | error e => rw [decm_bind_error _ _ h8] at hok; cases hok
  | ok p =>
    obtain ⟨t, s1⟩ := p
    rw [decm_bind_ok _ _ h8] at hok
    split at hok
    · cases hok; dsimp only at ht; omega
    · split at hok
      · cases hv : verification_type_info_new s1 with
        | error e => rw [decm_bind_error _ _ hv] at hok; cases hok
        | ok q =>
          obtain ⟨v, s2⟩ := q
          rw [decm_bind_ok _ _ hv] at hok
          cases hok; dsimp only at ht; omega
      · split at hok
        · cases hu : read_u16 s1 with
          | error e => rw [decm_bind_error _ _ hu] at hok; cases hok
          | ok q =>
            obtain ⟨od, s2⟩ := q
            rw [decm_bind_ok _ _ hu] at hok
            cases hv : verification_type_info_new s2 with
            | error e => rw [decm_bind_error _ _ hv] at hok; cases hok
            | ok q2 =>
              obtain ⟨v, s3⟩ := q2
              rw [decm_bind_ok _ _ hv] at hok
              cases hok; dsimp only at ht; omega
        · split at hok
          · cases hu : read_u16 s1 with
            | error e => rw [decm_bind_error _ _ hu] at hok; cases hok
            | ok q =>
              obtain ⟨od, s2⟩ := q
              rw [decm_bind_ok _ _ hu] at hok
              cases hok; dsimp only at ht; omega
          · split at hok
            · cases hu : read_u16 s1 with
              | error e => rw [decm_bind_error _ _ hu] at hok; cases hok
              | ok q =>
                obtain ⟨od, s2⟩ := q
                rw [decm_bind_ok _ _ hu] at hok
                cases hok; dsimp only at ht; omega
            · split at hok
              · cases hu : read_u16 s1 with
                | error e => rw [decm_bind_error _ _ hu] at hok; cases hok
                | ok q =>
                  obtain ⟨od, s2⟩ := q
                  rw [decm_bind_ok _ _ hu] at hok
                  cases hl : read_n verification_type_info_new (t - 251) s2 with
                  | error e => rw [decm_bind_error _ _ hl] at hok; cases hok
                  | ok q2 =>
                    obtain ⟨ls, s3⟩ := q2
                    rw [decm_bind_ok _ _ hl] at hok
                    cases hok; dsimp only at ht; omega
              · split at hok
                · cases hu : read_u16 s1 with
                  | error e => rw [decm_bind_error _ _ hu] at hok; cases hok
                  | ok q =>
                    obtain ⟨od, s2⟩ := q
                    rw [decm_bind_ok _ _ hu] at hok
                    cases hn : read_u16 s2 with
                    | error e => rw [decm_bind_error _ _ hn] at hok; cases hok
                    | ok q2 =>
                      obtain ⟨nl, s3⟩ := q2
                      rw [decm_bind_ok _ _ hn] at hok
                      cases hl : read_n verification_type_info_new nl s3 with
                      | error e => rw [decm_bind_error _ _ hl] at hok; cases hok
                      | ok q3 =>
                        obtain ⟨locals, s4⟩ := q3
                        rw [decm_bind_ok _ _ hl] at hok
                        cases hm : read_u16 s4 with
                        | error e => rw [decm_bind_error _ _ hm] at hok; cases hok
                        | ok q4 =>
                          obtain ⟨ns, s5⟩ := q4
                          rw [decm_bind_ok _ _ hm] at hok
                          cases hi : read_n verification_type_info_new ns s5 with
                          | error e => rw [decm_bind_error _ _ hi] at hok; cases hok
                          | ok q5 =>
                            obtain ⟨items, s6⟩ := q5
                            rw [decm_bind_ok _ _ hi] at hok
                            cases hok
                            refine ⟨od, nl, locals ++ items, ns, rfl, ?_⟩
                            rw [List.length_append,
                              read_n_length _ nl s3 locals s4 hl,
                              read_n_length _ ns s5 items _ hi]
                · cases hok

/-- Witness for C10's theorem: a concrete full_frame with one declared
local and one declared stack item decodes to two locals and an empty
stack. -/
theorem full_frame_stack_items_go_to_locals_witness :
    ∃ od nl items ns,
      (stack_map_frame.mk 255 (stack_map_frame_data.full_frame 0 1
        [{ tag := 0, data := verification_type_info_data.Top_variable_info },
         { tag := 1, data := verification_type_info_data.Integer_variable_info }] 1 [])).frame_data =
        stack_map_frame_data.full_frame od nl items ns [] ∧
      items.length = nl + ns :=
  full_frame_stack_items_go_to_locals [255, 0, 0, 0, 1, 0, 0, 1, 1]
    (stack_map_frame.mk 255 (stack_map_frame_data.full_frame 0 1
      [{ tag := 0, data := verification_type_info_data.Top_variable_info },
       { tag := 1, data := verification_type_info_data.Integer_variable_info }] 1 []))
    [] (by rfl) (by rfl)

/-- C6 counterexample: one out-of-range byte for each closed tag
enumeration — constant-pool tag 2, element-value tag 0, stack-map frame
type 128, verification-type tag 9 — makes the decoder panic (process
abort); none of them produces a recoverable FormatFault value. -/
theorem closed_tag_panic_counterexample :
    cp_info_new [2, 0, 0] =
      Except.error (DecErr.panicked "Unknown Constant Pool Tag parsed") ∧
    element_value_new 5 [0, 0, 0] =
      Except.error (DecErr.panicked "Parsed illegal element_value tag") ∧
    stack_map_frame_new [128] =
      Except.error (DecErr.panicked "Parsed stack_map_frame frame_type reserved for future use") ∧
    verification_type_info_new [9] =
      Except.error (DecErr.panicked "Unsupported verification_type_info tag parsed") :=
  ⟨rfl, rfl, rfl, rfl⟩

/-- C6 (amended): for every byte outside a closed tag enumeration the
decoder aborts via panic — no default substitution, but also no
recoverable FormatFault value. -/
theorem closed_tag_out_of_range_panics :
    (∀ (t : Nat), t ∉ ([7, 9, 10, 11, 8, 3, 4, 5, 6, 12, 1] : List Nat) → ∀ s,
       cp_info_new (t :: s) =
         Except.error (DecErr.panicked "Unknown Constant Pool Tag parsed")) ∧
    (∀ (t : Nat),
       t ∉ ([66, 67, 68, 70, 73, 74, 83, 90, 115, 101, 99, 64, 91] : List Nat) →
       ∀ s fuel, element_value_new (fuel + 1) (t :: s) =
         Except.error (DecErr.panicked "Parsed illegal element_value tag")) ∧
    (∀ (t : Nat), 128 ≤ t → t ≤ 246 → ∀ s,
       stack_map_frame_new (t :: s) =
         Except.error (DecErr.panicked "Parsed stack_map_frame frame_type reserved for future use")) ∧
    (∀ (t : Nat), 9 ≤ t → ∀ s,
       verification_type_info_new (t :: s) =
         Except.error (DecErr.panicked "Unsupported verification_type_info tag parsed")) := by
  refine ⟨?_, ?_, ?_, ?_⟩
  · intro t ht s
    rw [cp_info_new]
    rw [decm_bind_ok read_u8 _ (show read_u8 (t :: s) = Except.ok (t, s) from rfl)]
    split
    all_goals first
      | rfl
      | (exfalso; simp_all)
  · intro t ht s fuel
    rw [element_value_new]
    rw [decm_bind_ok read_u8 _ (show read_u8 (t :: s) = Except.ok (t, s) from rfl)]
    split
    all_goals first
      | rfl
      | (exfalso; simp_all)
  · intro t h1 h2 s
    rw [stack_map_frame_new]
    rw [decm_bind_ok read_u8 _ (show read_u8 (t :: s) = Except.ok (t, s) from rfl)]
    rw [if_neg (by omega : ¬ t ≤ 63), if_neg (by omega : ¬ t ≤ 127),
      if_neg (by omega : ¬ t = 247), if_neg (by omega : ¬ (248 ≤ t ∧ t ≤ 250)),
      if_neg (by omega : ¬ t = 251), if_neg (by omega : ¬ (252 ≤ t ∧ t ≤ 254)),
      if_neg (by omega : ¬ t = 255)]
    rfl
  · intro t h1 s
    rw [verification_type_info_new]
    rw [decm_bind_ok read_u8 _ (show read_u8 (t :: s) = Except.ok (t, s) from rfl)]
    split
    all_goals first
      | rfl
      | omega

/-- Witness for C6's theorem at one concrete out-of-range byte per
enumeration. -/
theorem closed_tag_out_of_range_panics_witness :
    cp_info_new [2] = Except.error (DecErr.panicked "Unknown Constant Pool Tag parsed") ∧
    element_value_new 1 [0] = Except.error (DecErr.panicked "Parsed illegal element_value tag") ∧
    stack_map_frame_new [200] =
      Except.error (DecErr.panicked "Parsed stack_map_frame frame_type reserved for future use") ∧
    verification_type_info_new [11] =
      Except.error (DecErr.panicked "Unsupported verification_type_info tag parsed") :=
  ⟨closed_tag_out_of_range_panics.1 2 (by decide) [],
   closed_tag_out_of_range_panics.2.1 0 (by decide) [] 0,
   closed_tag_out_of_range_panics.2.2.1 200 (by omega) (by omega) [],
   closed_tag_out_of_range_panics.2.2.2 11 (by omega) []⟩

set_option maxRecDepth 4000 in
/-- C7 counterexample: requesting the bare name `[` panics inside the
descriptor parser instead of synthesizing a class, and a name with 256
leading markers wraps the `u8` dimension counter to 0 and parses the
whole name as the component, so the synthesized dimensionality is 0,
not 256. -/
theorem array_marker_counterexample :
    create_class [] loader_st0 "[" =
      LRes.panic (PanicReason.msg "called Option unwrap on a None value") ∧
    create_class [] loader_st0 name256 =
      LRes.ok (0, { class_map := [(name256, 0)], classes := [ClassV.Array { dimensions := 0, component_type := FieldDescriptor.Reference (ClassRef.Symbolic name256), access_flags := 1, name := name256 }] }) :=
  ⟨rfl, rfl⟩

theorem loader_fuel_succ_succ :
    ∀ classpath : List ClassPath, ∃ k, loader_fuel classpath = k + 2 := by
  intro classpath
  refine ⟨loader_fuel classpath - 2, ?_⟩
  have : 6 ≤ loader_fuel classpath := by
    unfold loader_fuel
    omega
  omega

theorem array_create_core :
    ∀ (classpath : List ClassPath) (st : LoaderState) (name : String)
      (fd : FieldDescriptor) (fuel : Nat),
      starts_with_bracket name = true →
      count_leading_brackets name.data ≤ 255 →
      List.lookup name st.class_map = Option.none →
      parse_field_descriptor_str
        (String.mk (name.data.drop (count_leading_brackets name.data))) = Except.ok fd →
      create_class_rec classpath st name [] (fuel + 2) =
        LRes.ok (st.classes.length,
          { class_map := (name, st.classes.length) :: st.class_map,
            classes := st.classes ++ [ClassV.Array { dimensions := count_leading_brackets name.data, component_type := fd, access_flags := 1, name := name }] }) := by
  intro classpath st name fd fuel hb hcount hlook hparse
  have hmod : count_leading_brackets name.data % 256 = count_leading_brackets name.data :=
    Nat.mod_eq_of_lt (by omega)
  rw [create_class_rec]
  simp only [hlook, Option.isSome_none, Bool.false_eq_true, if_false]
  rw [load_class]
  rw [if_pos hb]
  rw [load_array_class, hmod, hparse]
  rfl

/-- C7 (amended): for every requested name with a leading `[` marker,
at most 255 leading markers, and a component descriptor the field
parser accepts, the engine synthesizes an ArrayClass whose
dimensionality is the marker count and whose component is the parsed
descriptor, registers it under the full bracketed name with ACC_PUBLIC
access, with a result independent of the class path (no lookups); in
particular `[[I` yields dimensionality 2 with primitive-int component
for every class path.  Names violating the extra premises abort: `[`
panics in the parser, and 256 markers wrap the u8 counter (see the
counterexample). -/
theorem array_class_synthesis :
    (∀ (classpath classpath' : List ClassPath) (st : LoaderState) (name : String)
       (fd : FieldDescriptor) (fuel : Nat),
       starts_with_bracket name = true →
       count_leading_brackets name.data ≤ 255 →
       List.lookup name st.class_map = Option.none →
       parse_field_descriptor_str
         (String.mk (name.data.drop (count_leading_brackets name.data))) = Except.ok fd →
       create_class_rec classpath st name [] (fuel + 2) =
         LRes.ok (st.classes.length,
           { class_map := (name, st.classes.length) :: st.class_map,
             classes := st.classes ++ [ClassV.Array { dimensions := count_leading_brackets name.data, component_type := fd, access_flags := 1, name := name }] }) ∧
       create_class_rec classpath st name [] (fuel + 2) =
         create_class_rec classpath' st name [] (fuel + 2)) ∧
    (∀ (classpath : List ClassPath) (st : LoaderState),
       List.lookup "[[I" st.class_map = Option.none →
       create_class classpath st "[[I" =
         LRes.ok (st.classes.length,
           { class_map := ("[[I", st.classes.length) :: st.class_map,
             classes := st.classes ++ [ClassV.Array { dimensions := 2, component_type := FieldDescriptor.Integer, access_flags := 1, name := "[[I" }] })) := by
  constructor
  · intro classpath classpath' st name fd fuel hb hcount hlook hparse
    refine ⟨array_create_core classpath st name fd fuel hb hcount hlook hparse, ?_⟩
    rw [array_create_core classpath st name fd fuel hb hcount hlook hparse,
      array_create_core classpath' st name fd fuel hb hcount hlook hparse]
  · intro classpath st hlook
    obtain ⟨k, hk⟩ := loader_fuel_succ_succ classpath
    rw [create_class, hk]
    exact array_create_core classpath st "[[I" FieldDescriptor.Integer k (by rfl)
      (by decide) hlook (by rfl)

/-- Witness for C7's theorem: the array class `[J` is synthesized with
dimensionality 1 and primitive-long component for two different class
paths, and `[[I` against the empty class path and empty cache. -/
theorem array_class_synthesis_witness :
    (create_class_rec cpA loader_st0 "[J" [] 2 =
       LRes.ok (0, { class_map := [("[J", 0)], classes := [ClassV.Array { dimensions := 1, component_type := FieldDescriptor.Long, access_flags := 1, name := "[J" }] }) ∧
     create_class_rec cpA loader_st0 "[J" [] 2 = create_class_rec [] loader_st0 "[J" [] 2) ∧
    create_class [] loader_st0 "[[I" =
      LRes.ok (0, { class_map := [("[[I", 0)], classes := [ClassV.Array { dimensions := 2, component_type := FieldDescriptor.Integer, access_flags := 1, name := "[[I" }] }) :=
  ⟨array_class_synthesis.1 cpA [] loader_st0 "[J" FieldDescriptor.Long 0 (by rfl) (by decide)
     (by rfl) (by rfl),
   array_class_synthesis.2 [] loader_st0 (by rfl)⟩

/-- C8 (code bug): the method-descriptor parser never reads the return
descriptor after the closing parenthesis — `return_type` is always
Void (method.rs line 116) — and the reference parameter's class name
loses its final character to an off-by-one slice: for
`(Ljava/lang/Object;)J` the code yields the parameter reference
`java/lang/Objec` and return kind Void, where the format prescribes
`java/lang/Object` and a long return. -/
theorem method_descriptor_return_ignored :
    parse_method_descriptor "(Ljava/lang/Object;)J" =
      Except.ok { parameters := [FieldDescriptor.Reference (ClassRef.Symbolic "java/lang/Objec")],
                  return_type := ReturnDescriptor.Void } := rfl

/-- C1 counterexample: with `A.class` declaring super `A`, the
top-level request detects the cycle but aborts the whole process with
a panic carrying ClassCircularityError — no fault value reaches the
caller. -/
theorem cycle_panics_counterexample :
    create_class cpA loader_st0 "A" =
      LRes.panic (PanicReason.unwrapped ClassLoadingError.ClassCircularityError) := rfl

/-- C2 counterexample: a request that fails (here: class not on the
class path) aborts the process via the `.unwrap()` panic in
`load_class` instead of returning a fault value to the caller. -/
theorem fault_not_returned_counterexample :
    create_class [] loader_st0 "A" =
      LRes.panic (PanicReason.unwrapped ClassLoadingError.NoClassDefFoundError) := rfl

theorem lookup_some_key_mem :
    ∀ (l : List (String × List Nat)) (k : String) (v : List Nat),
      List.lookup k l = Option.some v → k ∈ l.map Prod.fst := by
  intro l k v
  induction l with
  | nil => intro h; cases h
  | cons p ps ih =>
    obtain ⟨a, b⟩ := p
    intro h
    rw [List.lookup] at h
    cases hkb : (k == a) with
    | true =>
      have : k = a := by exact eq_of_beq hkb
      simp [this]
    | false =>
      rw [hkb] at h
      exact List.mem_cons_of_mem _ (ih h)

theorem search_hit_key_mem :
    ∀ (roots : List ClassPath) (cfn : String) (bytes : List Nat),
      search_classpath_loop cfn roots = Except.ok bytes →
      cfn ∈ (roots.map (fun r => (root_entries r).map Prod.fst)).flatten := by
  intro roots cfn bytes
  induction roots with
  | nil => intro h; cases h
  | cons r rs ih =>
    rw [search_classpath_loop_cons]
    cases hl : List.lookup cfn (root_entries r) with
    | some b =>
      intro _
      simp only [List.map_cons, List.flatten_cons, List.mem_append]
      exact Or.inl (lookup_some_key_mem _ _ _ hl)
    | none =>
      intro h
      simp only [List.map_cons, List.flatten_cons, List.mem_append]
      exact Or.inr (ih h)

theorem string_append_class_inj :
    Function.Injective (fun n : String => n ++ ".class") := by
  intro a b h
  have hd : a.data ++ ".class".data = b.data ++ ".class".data := by
    have := congrArg String.data h
    simpa [String.data_append] using this
  have : a.data = b.data := List.append_cancel_right hd
  cases a; cases b; exact congrArg String.mk this

theorem chain_length_le_entry_count :
    ∀ (classpath : List ClassPath) (names : List String),
      names.Nodup →
      (∀ n ∈ names, ∃ bytes, search_classpath classpath n = Except.ok bytes) →
      names.length ≤ (classpath.map (fun r => (root_entries r).length)).sum := by
  intro classpath names hnd hsearch
  have hkeys_nodup : (names.map (fun n => n ++ ".class")).Nodup :=
    List.Nodup.map string_append_class_inj hnd
  have hsub : (names.map (fun n => n ++ ".class")) ⊆
      (classpath.map (fun r => (root_entries r).map Prod.fst)).flatten := by
    intro k hk
    obtain ⟨n, hn, rfl⟩ := List.mem_map.mp hk
    obtain ⟨bytes, hb⟩ := hsearch n hn
    exact search_hit_key_mem classpath (n ++ ".class") bytes hb
  have hlen := List.Subperm.length_le (List.subperm_of_subset hkeys_nodup hsub)
  rw [List.length_map] at hlen
  calc names.length ≤ _ := hlen
    _ = (classpath.map (fun r => (root_entries r).length)).sum := by
        rw [List.length_flatten, List.map_map]
        congr 1
        apply List.map_congr_left
        intro r _
        simp

theorem getD_mem_of_lt :
    ∀ (names : List String) (j : Nat), j < names.length → names.getD j "" ∈ names := by
  intro names j hj
  rw [List.getD_eq_getElem?_getD, List.getElem?_eq_getElem hj, Option.getD_some]
  exact List.getElem_mem hj

theorem getD_not_mem_take :
    ∀ (names : List String) (j : Nat), names.Nodup → j < names.length →
      names.getD j "" ∉ names.take j := by
  intro names j hnd hj
  have hsplit := List.take_append_drop j names
  rw [← hsplit, List.nodup_append] at hnd
  obtain ⟨-, -, hdisj⟩ := hnd
  have hq : (names.drop j)[0]? = some (names.getD j "") := by
    rw [List.getElem?_drop, Nat.add_zero, List.getElem?_eq_getElem hj,
      List.getD_eq_getElem?_getD, List.getElem?_eq_getElem hj, Option.getD_some]
  have hmemdrop : names.getD j "" ∈ names.drop j := List.getElem?_mem hq
  exact fun hmem => hdisj hmem hmemdrop

theorem take_succ_reverse :
    ∀ (names : List String) (j : Nat), j < names.length →
      (names.take (j + 1)).reverse = names.getD j "" :: (names.take j).reverse := by
  intro names j hj
  rw [List.take_succ, List.getElem?_eq_getElem hj]
  simp [List.getD_eq_getElem?_getD, List.getElem?_eq_getElem hj]

theorem load_file_class_revisit :
    ∀ (classpath : List ClassPath) (st : LoaderState) (name : String)
      (stack : List String) (f : Nat) (bytes rest : List Nat) (cls : ClassFile),
      search_classpath classpath name = Except.ok bytes →
      class_file_decode bytes = Except.ok (cls, rest) →
      List.lookup cls.get_name st.class_map = Option.none →
      cls.get_name = name →
      stack.contains name = true →
      load_file_class classpath st name stack (f + 1) =
        LRes.err ClassLoadingError.ClassCircularityError := by
  intro classpath st name stack f bytes rest cls hs hd hlook hname hstk
  rw [hname] at hlook
  rw [load_file_class]
  simp only [hs, hd, hlook, hname, Option.isSome_none, Bool.false_eq_true, if_false,
    ne_eq, not_true_eq_false, hstk, if_true]

theorem load_file_class_walk_step :
    ∀ (classpath : List ClassPath) (st : LoaderState) (name : String)
      (stack : List String) (f : Nat) (bytes rest : List Nat) (cls : ClassFile)
      (super_name : String) (r : PanicReason),
      search_classpath classpath name = Except.ok bytes →
      class_file_decode bytes = Except.ok (cls, rest) →
      List.lookup cls.get_name st.class_map = Option.none →
      cls.get_name = name →
      stack.contains name = false →
      cls.get_super_class = Option.some (ClassRef.Symbolic super_name) →
      create_class_rec classpath st super_name (cls.get_name :: stack) f = LRes.panic r →
      load_file_class classpath st name stack (f + 1) = LRes.panic r := by
  intro classpath st name stack f bytes rest cls super_name r hs hd hlook hname hstk hsup hrec
  have hhas : cls.has_super_class = true := by
    rw [ClassFile.has_super_class]
    rw [ClassFile.get_super_class] at hsup
    rw [hsup]
    rfl
  rw [hname] at hrec
  rw [hname] at hlook
  rw [load_file_class]
  simp only [hs, hd, hlook, hname, Option.isSome_none, Bool.false_eq_true,
    Bool.true_eq_false, if_false, ne_eq, not_true_eq_false, hstk, hhas, hsup, hrec]

theorem create_lift_err :
    ∀ (classpath : List ClassPath) (st : LoaderState) (name : String)
      (stack : List String) (f : Nat) (e : ClassLoadingError),
      starts_with_bracket name = false →
      List.lookup name st.class_map = Option.none →
      load_file_class classpath st name stack f = LRes.err e →
      create_class_rec classpath st name stack (f + 2) =
        LRes.panic (PanicReason.unwrapped e) := by
  intro classpath st name stack f e hbr hlook hfile
  rw [show f + 2 = (f + 1) + 1 from rfl, create_class_rec]
  simp only [hlook, Option.isSome_none, Bool.false_eq_true, if_false]
  rw [load_class]
  simp only [hbr, Bool.false_eq_true, if_false, hfile]

theorem create_lift_panic :
    ∀ (classpath : List ClassPath) (st : LoaderState) (name : String)
      (stack : List String) (f : Nat) (r : PanicReason),
      starts_with_bracket name = false →
      List.lookup name st.class_map = Option.none →
      load_file_class classpath st name stack f = LRes.panic r →
      create_class_rec classpath st name stack (f + 2) = LRes.panic r := by
  intro classpath st name stack f r hbr hlook hfile
  rw [show f + 2 = (f + 1) + 1 from rfl, create_class_rec]
  simp only [hlook, Option.isSome_none, Bool.false_eq_true, if_false]
  rw [load_class]
  simp only [hbr, Bool.false_eq_true, if_false, hfile]

theorem chain_walk :
    ∀ (classpath : List ClassPath) (st : LoaderState) (names : List String)
      (cls : Nat → ClassFile),
      names.Nodup →
      (∀ i, i < names.length →
        starts_with_bracket (names.getD i "") = false ∧
        List.lookup (names.getD i "") st.class_map = Option.none ∧
        (∃ bytes rest, search_classpath classpath (names.getD i "") = Except.ok bytes ∧
           class_file_decode bytes = Except.ok (cls i, rest)) ∧
        (cls i).get_name = names.getD i "" ∧
        (cls i).get_super_class =
          Option.some (ClassRef.Symbolic (names.getD ((i + 1) % names.length) ""))) →
      0 < names.length →
      ∀ d j, j + d = names.length →
      ∀ fuel, 3 * d + 3 ≤ fuel →
        create_class_rec classpath st (names.getD (j % names.length) "")
          ((names.take j).reverse) fuel =
          LRes.panic (PanicReason.unwrapped ClassLoadingError.ClassCircularityError) := by
  intro classpath st names cls hnd H hpos d
  induction d with
  | zero =>
    intro j hj fuel hfuel
    have hjlen : j = names.length := by omega
    subst hjlen
    rw [Nat.mod_self, List.take_length]
    obtain ⟨hbr, hlook, ⟨bytes, rest, hs, hd⟩, hname, -⟩ := H 0 hpos
    obtain ⟨f, rfl⟩ : ∃ f, fuel = (f + 1) + 2 := ⟨fuel - 3, by omega⟩
    have hstk : names.reverse.contains (names.getD 0 "") = true := by
      rw [List.contains]
      exact List.elem_iff.mpr (List.mem_reverse.mpr (getD_mem_of_lt names 0 hpos))
    have hlook' : List.lookup (cls 0).get_name st.class_map = Option.none := by
      rw [hname]; exact hlook
    exact create_lift_err classpath st _ _ (f + 1)
      ClassLoadingError.ClassCircularityError hbr hlook
      (load_file_class_revisit classpath st _ _ f bytes rest (cls 0) hs hd hlook' hname hstk)
  | succ d ih =>
    intro j hj fuel hfuel
    have hjlt : j < names.length := by omega
    rw [Nat.mod_eq_of_lt hjlt]
    obtain ⟨hbr, hlook, ⟨bytes, rest, hs, hd⟩, hname, hsuper⟩ := H j hjlt
    obtain ⟨f, rfl⟩ : ∃ f, fuel = (f + 1) + 2 := ⟨fuel - 3, by omega⟩
    have hstk : ((names.take j).reverse).contains (names.getD j "") = false := by
      rw [List.contains]
      cases helem : List.elem (names.getD j "") (names.take j).reverse with
      | false => rfl
      | true =>
        exact absurd (List.mem_reverse.mp (List.elem_iff.mp helem))
          (getD_not_mem_take names j hnd hjlt)
    have hlook' : List.lookup (cls j).get_name st.class_map = Option.none := by
      rw [hname]; exact hlook
    have hrec : create_class_rec classpath st (names.getD ((j + 1) % names.length) "")
        ((cls j).get_name :: (names.take j).reverse) f =
        LRes.panic (PanicReason.unwrapped ClassLoadingError.ClassCircularityError) := by
      rw [hname, ← take_succ_reverse names j hjlt]
      exact ih (j + 1) (by omega) f (by omega)
    exact create_lift_panic classpath st _ _ (f + 1) _ hbr hlook
      (load_file_class_walk_step classpath st _ _ f bytes rest (cls j) _ _ hs hd hlook'
        hname hstk hsuper hrec)

/-- C1 (amended): for every class path serving a cyclic super chain
n0 → n1 → ... → nk → n0 of distinct, uncached, non-array names whose
class files decode successfully to those names, the top-level request
for n0 terminates — the canonical fuel of `create_class`, which starts
the in-progress set fresh, never runs out — but instead of returning
CircularityFault to the caller it aborts the process with the
`.unwrap()` panic carrying ClassCircularityError. -/
theorem cyclic_chain_aborts :
    ∀ (classpath : List ClassPath) (st : LoaderState) (names : List String)
      (cls : Nat → ClassFile),
      0 < names.length → names.Nodup →
      (∀ i, i < names.length →
        starts_with_bracket (names.getD i "") = false ∧
        List.lookup (names.getD i "") st.class_map = Option.none ∧
        (∃ bytes rest, search_classpath classpath (names.getD i "") = Except.ok bytes ∧
           class_file_decode bytes = Except.ok (cls i, rest)) ∧
        (cls i).get_name = names.getD i "" ∧
        (cls i).get_super_class =
          Option.some (ClassRef.Symbolic (names.getD ((i + 1) % names.length) ""))) →
      create_class classpath st (names.getD 0 "") =
        LRes.panic (PanicReason.unwrapped ClassLoadingError.ClassCircularityError) := by
  intro classpath st names cls hpos hnd H
  have hsearch_all : ∀ n ∈ names, ∃ bytes, search_classpath classpath n = Except.ok bytes := by
    intro n hn
    obtain ⟨i, hi, hget⟩ := List.mem_iff_getElem.mp hn
    obtain ⟨-, -, ⟨bytes, rest, hs, -⟩, -, -⟩ := H i hi
    refine ⟨bytes, ?_⟩
    rw [List.getD_eq_getElem?_getD, List.getElem?_eq_getElem hi, Option.getD_some, hget] at hs
    exact hs
  have hcount := chain_length_le_entry_count classpath names hnd hsearch_all
  have hfuel : 3 * names.length + 3 ≤ loader_fuel classpath := by
    unfold loader_fuel
    omega
  have hwalk := chain_walk classpath st names cls hnd H hpos names.length 0 (by omega)
    (loader_fuel classpath) hfuel
  rw [create_class]
  simpa using hwalk

/-- Witness for C1's theorem: the one-element cycle of `classA_bytes`
(class A extending A) makes the top-level request panic with
ClassCircularityError. -/
theorem cyclic_chain_aborts_witness :
    create_class cpA loader_st0 "A" =
      LRes.panic (PanicReason.unwrapped ClassLoadingError.ClassCircularityError) := by
  have h := cyclic_chain_aborts cpA loader_st0 ["A"] (fun _ => class_A) (by decide)
    (by decide) ?H
  case H =>
    intro i hi
    have hi0 : i = 0 := by
      simp only [List.length_singleton] at hi
      omega
    subst hi0
    exact ⟨rfl, rfl, ⟨classA_bytes, [], rfl, rfl⟩, rfl, rfl⟩
  simpa using h
